import Mathlib

/-!
Verification of the invoice issuance and bookkeeping service: a shallow
embedding of the invoice-number allocator, the bimonthly period calculator,
the invoice ledger (create / update / void / batch upload / annual stats)
and the permission gate, together with theorems settling the frozen claims.

The embedding models the relational store as explicit lists of rows threaded
through every operation.  JavaScript numbers appearing as money amounts are
modelled as `Int` (the columns are exact `decimal(_,2)` values), row ids of
`serial` columns are modelled as `Nat` freshly generated per insert, and a
thrown exception is an `Except.error` carrying the message string.  Each
operation returns the pair of its outcome and the persisted database, so a
failing operation documents exactly which writes survived it.
-/

deriving instance DecidableEq for Except

namespace InvoiceApp

/-! ### Decimal rendering of numbers

`numToString` models the JavaScript number-to-string conversion (template
literals and `Number.prototype.toString`) for the natural numbers the service
renders: years, months and invoice-number cursors.  It is fuel-based
structural recursion so that concrete values reduce inside the kernel. -/

/-- The character of a decimal digit, `'0'` for 0 through `'9'` for 9. -/
def digitChar (d : Nat) : Char := Char.ofNat (48 + d)

/-- Accumulator-style decimal digit list; the fuel argument only serves
termination and is always at least the digit count. -/
def decDigitsCore : Nat → Nat → List Char → List Char
  | 0, _, acc => acc
  | fuel + 1, n, acc =>
    if n < 10 then digitChar n :: acc
    else decDigitsCore fuel (n / 10) (digitChar (n % 10) :: acc)

/-- Model of the JavaScript `toString` of a nonnegative integer. -/
def numToString (n : Nat) : String := String.mk (decDigitsCore (n + 1) n [])

/-- Model of JavaScript `String.prototype.padStart(w, c)`. -/
def padStart (w : Nat) (c : Char) (s : String) : String :=
  String.mk (List.replicate (w - s.length) c) ++ s

def zeroChar : Char := '0'

/-! ### Calendar dates

A `JsDate` is the portion of a JavaScript `Date` the service reads:
`getFullYear()`, `getMonth()` (0-based month index) and `getDate()`
(day of month).  Time of day never influences the modelled logic, so dates
are kept at day granularity; `toOrd` reproduces the numeric timestamp order
for calendar-valid dates (day at most 31). -/

structure JsDate where
  year : Nat
  monthIndex : Nat
  day : Nat
deriving DecidableEq

/-- Order-embedding of a date used to model timestamp comparisons. -/
def JsDate.toOrd (d : JsDate) : Nat := (d.year * 12 + d.monthIndex) * 32 + d.day

/-- Model of comparing two `Date` timestamps with `<=`. -/
def dateLe (a b : JsDate) : Bool := a.toOrd ≤ b.toOrd

/-! ### Period calculator (`InvoiceNumberService`, period helpers)

`getCurrentYearMonth` and `getNextYearMonth` read the clock in the source;
here the current date is an explicit argument.  `Math.ceil(month / 2)` on a
positive integer month is `(month + 1) / 2` in natural division. -/

/-- Embeds `InvoiceNumberService.getCurrentYearMonth`. -/
def getCurrentYearMonth (now : JsDate) : String :=
  let year := now.year
  let month := now.monthIndex + 1
  let period := (month + 1) / 2
  let startMonth := (period - 1) * 2 + 1
  let endMonth := period * 2
  numToString year ++ padStart 2 zeroChar (numToString startMonth)
    ++ padStart 2 zeroChar (numToString endMonth)

/-- Embeds `InvoiceNumberService.getNextYearMonth`; the two mutable `let`
bindings of the source become conditional expressions. -/
def getNextYearMonth (now : JsDate) : String :=
  let year := now.year
  let month := now.monthIndex + 1
  let currentPeriod := (month + 1) / 2
  let nextPeriod := if currentPeriod + 1 > 6 then 1 else currentPeriod + 1
  let nextYear := if currentPeriod + 1 > 6 then year + 1 else year
  let startMonth := (nextPeriod - 1) * 2 + 1
  let endMonth := nextPeriod * 2
  numToString nextYear ++ padStart 2 zeroChar (numToString startMonth)
    ++ padStart 2 zeroChar (numToString endMonth)

/-- Embeds `InvoiceNumberService.canOpenNextPeriodInvoice`:
`currentDate.getDate() >= 20`. -/
def canOpenNextPeriodInvoice (currentDate : JsDate) : Bool :=
  currentDate.day ≥ 20

/-- Model of `parseInt` applied to the all-digit strings the service parses
(the leading four characters of a period label). -/
def parseDecCore : List Char → Nat → Nat
  | [], acc => acc
  | c :: cs, acc => parseDecCore cs (acc * 10 + (c.toNat - 48))

/-- `parseDec s` models `parseInt(s)` for digit strings. -/
def parseDec (s : String) : Nat := parseDecCore s.data 0

/-! ### Data model

Rows of the relational tables.  Bookkeeping timestamps (`createdAt`,
`updatedAt`, `downloadedAt`) and free-text columns that no modelled code
reads (`notes`, audit `details`, `ipAddress`, `userAgent`, password hashes,
display names) are omitted: no claim and no embedded operation depends on
them. -/

/-- A row of `invoice_numbers`.  The column `prefix` is a Lean keyword and is
called `prefix_` here. -/
structure NumberRange where
  id : Nat
  yearMonth : String
  prefix_ : String
  startNumber : Nat
  endNumber : Nat
  currentNumber : Nat
  isActive : Bool
deriving DecidableEq

/-- A row of `invoices`. -/
structure Invoice where
  id : Nat
  invoiceNumber : String
  yearMonth : String
  buyerName : String
  preTaxTotal : Int
  taxTotal : Int
  grandTotal : Int
  status : String
  userId : String
  issuedAt : Option JsDate
  voidedAt : Option JsDate
  voidReason : Option String
  uploadedAt : Option JsDate
deriving DecidableEq

/-- A row of `invoice_items`. -/
structure InvoiceItem where
  id : Nat
  sessionId : String
  invoiceId : Option Nat
  description : String
  category : String
  preTaxAmount : Int
  taxAmount : Int
  totalAmount : Int
deriving DecidableEq

/-- A row of `annual_stats`. -/
structure AnnualStat where
  id : Nat
  userId : String
  year : Nat
  totalRevenue : Int
  totalInvoices : Int
deriving DecidableEq

/-- A row of `audit_logs`. -/
structure AuditEntry where
  userId : String
  action : String
  resourceType : String
  resourceId : Option String
deriving DecidableEq

/-- A row of `users`. -/
structure User where
  id : String
  username : String
  role : String
  isActive : Bool
deriving DecidableEq

/-- The persisted store: one list of rows per table. -/
structure DB where
  users : List User
  invoiceNumbers : List NumberRange
  invoices : List Invoice
  invoiceItems : List InvoiceItem
  annualStats : List AnnualStat
  auditLogs : List AuditEntry
deriving DecidableEq

/-- Fresh id for an insert into a `serial` column: one more than the largest
id in use. -/
def nextId (ids : List Nat) : Nat := ids.foldr max 0 + 1

/-! ### Error messages thrown by the services -/

def periodNotOpenMsg : String := "尚未到開立下期發票的時間（每月20日後可開立下期發票）"

def onlyCurrentOrNextMsg : String := "只能開立當期或下期發票"

def rangeMissingMsg : String := "發票號碼段不存在"

def rangeExhaustedMsg : String := "發票號碼已用完，請聯繫系統管理員"

def invoiceMissingMsg : String := "發票不存在"

def alreadyVoidedMsg : String := "發票已作廢"

def draftOnlyMsg : String := "只能修改草稿狀態的發票"

/-! ### Number range allocator (`InvoiceNumberService`)

Every operation returns its outcome together with the persisted database.
An `Except.error` outcome is a thrown exception; the database component then
records exactly the writes that survive it (in this service every throw
happens before the function writes anything). -/

/-- Embeds `InvoiceNumberService.downloadNewNumberRange`. -/
def downloadNewNumberRange (yearMonth : String) (db0 : DB) : NumberRange × DB :=
  let pfx := yearMonth.drop 2
  let startNumber := 10000001
  let endNumber := 10000500
  let range : NumberRange :=
    { id := nextId (db0.invoiceNumbers.map NumberRange.id)
      yearMonth := yearMonth
      prefix_ := pfx
      startNumber := startNumber
      endNumber := endNumber
      currentNumber := startNumber
      isActive := true }
  (range, { db0 with invoiceNumbers := db0.invoiceNumbers ++ [range] })

/-- Embeds `InvoiceNumberService.getOrCreateNumberRange`: the first active
range for the period, or a freshly provisioned one. -/
def getOrCreateNumberRange (yearMonth : String) (db0 : DB) : NumberRange × DB :=
  match db0.invoiceNumbers.find? (fun r => r.yearMonth == yearMonth && r.isActive) with
  | some existingRange => (existingRange, db0)
  | none => downloadNewNumberRange yearMonth db0

/-- Embeds `InvoiceNumberService.allocateNextNumber`. -/
def allocateNextNumber (rangeId : Nat) (db0 : DB) : Except String String × DB :=
  match db0.invoiceNumbers.find? (fun r => r.id == rangeId) with
  | none => (Except.error rangeMissingMsg, db0)
  | some range =>
    if range.currentNumber > range.endNumber then
      (Except.error rangeExhaustedMsg, db0)
    else
      let invoiceNumber :=
        NumberRange.prefix_ range ++ padStart 8 zeroChar (numToString range.currentNumber)
      let db1 :=
        { db0 with
            invoiceNumbers := db0.invoiceNumbers.map fun r =>
              if r.id == rangeId then { r with currentNumber := range.currentNumber + 1 }
              else r }
      (Except.ok invoiceNumber, db1)

/-- The shared tail of `getAvailableInvoiceNumber`: acquire the period's
range, then allocate from it. -/
def allocateForPeriod (targetYearMonth : String) (db0 : DB) : Except String String × DB :=
  let acquired := getOrCreateNumberRange targetYearMonth db0
  allocateNextNumber acquired.1.id acquired.2

/-- Embeds `InvoiceNumberService.getAvailableInvoiceNumber`, with the clock
made explicit (`now` stands for every `new Date()` the call reads). -/
def getAvailableInvoiceNumber (now : JsDate) (requestedYearMonth : String) (db0 : DB) :
    Except String String × DB :=
  let currentYearMonth := getCurrentYearMonth now
  let targetYearMonth := requestedYearMonth
  if requestedYearMonth ≠ currentYearMonth then
    if ¬ canOpenNextPeriodInvoice now then
      (Except.error periodNotOpenMsg, db0)
    else if requestedYearMonth ≠ getNextYearMonth now then
      (Except.error onlyCurrentOrNextMsg, db0)
    else
      allocateForPeriod targetYearMonth db0
  else
    allocateForPeriod targetYearMonth db0

/-! ### Invoice ledger (`InvoiceService`) -/

/-- Embeds `InvoiceService.updateAnnualStats` (runs inside the enclosing
transaction; it never throws). -/
def updateAnnualStats (userId : String) (amount : Int) (yearMonth : String) (db0 : DB) : DB :=
  let year := parseDec (yearMonth.take 4)
  match db0.annualStats.find? (fun s => s.userId == userId && s.year == year) with
  | some existingStats =>
    { db0 with
        annualStats := db0.annualStats.map fun s =>
          if s.id == existingStats.id then
            { s with
                totalRevenue := existingStats.totalRevenue + amount
                totalInvoices := existingStats.totalInvoices + (if amount > 0 then 1 else -1) }
          else s }
  | none =>
    { db0 with
        annualStats := db0.annualStats ++
          [{ id := nextId (db0.annualStats.map AnnualStat.id)
             userId := userId
             year := year
             totalRevenue := amount
             totalInvoices := if amount > 0 then 1 else 0 }] }

/-- The caller-supplied invoice payload of `createInvoice`
(`Omit<InsertInvoice, 'invoiceNumber'>`; the service overwrites `userId` and
`status` after spreading it, so those keys are not modelled here). -/
structure InsertInvoiceData where
  yearMonth : String
  buyerName : String
  preTaxTotal : Int
  taxTotal : Int
  grandTotal : Int
  issuedAt : Option JsDate
deriving DecidableEq

/-- A caller-supplied line item of `createInvoice`. -/
structure NewItem where
  description : String
  category : String
  preTaxAmount : Int
  taxAmount : Int
  totalAmount : Int
deriving DecidableEq

/-- Embeds `InvoiceService.createInvoice`.  The whole body runs in one
transaction, but the number allocation inside it goes through the global
connection, so its cursor write persists independently; in this code every
throw happens before any write, and after the allocation no step can throw,
hence the transaction always commits when the allocator succeeds.  `issuedAt`
defaults to the current date (`defaultNow`). -/
def createInvoice (now : JsDate) (invoiceData : InsertInvoiceData) (items : List NewItem)
    (userId : String) (db0 : DB) : Except String Invoice × DB :=
  match getAvailableInvoiceNumber now invoiceData.yearMonth db0 with
  | (Except.error e, db1) => (Except.error e, db1)
  | (Except.ok invoiceNumber, db1) =>
    let invoice : Invoice :=
      { id := nextId (db1.invoices.map Invoice.id)
        invoiceNumber := invoiceNumber
        yearMonth := invoiceData.yearMonth
        buyerName := invoiceData.buyerName
        preTaxTotal := invoiceData.preTaxTotal
        taxTotal := invoiceData.taxTotal
        grandTotal := invoiceData.grandTotal
        status := "issued"
        userId := userId
        issuedAt := some (invoiceData.issuedAt.getD now)
        voidedAt := none
        voidReason := none
        uploadedAt := none }
    let db2 := { db1 with invoices := db1.invoices ++ [invoice] }
    let db3 :=
      { db2 with
          invoiceItems := db2.invoiceItems ++ items.map fun item =>
            { id := 0
              sessionId := "invoice_" ++ numToString invoice.id
              invoiceId := some invoice.id
              description := item.description
              category := item.category
              preTaxAmount := item.preTaxAmount
              taxAmount := item.taxAmount
              totalAmount := item.totalAmount } }
    let db4 := updateAnnualStats userId invoice.grandTotal invoiceData.yearMonth db3
    let db5 :=
      { db4 with
          auditLogs := db4.auditLogs ++
            [{ userId := userId
               action := "CREATE_INVOICE"
               resourceType := "invoice"
               resourceId := some (numToString invoice.id) }] }
    (Except.ok invoice, db5)

/-- The caller-supplied patch of `updateInvoice` (`Partial<UpdateInvoice>`);
an absent field leaves the column unchanged. -/
structure UpdateInvoiceData where
  yearMonth : Option String
  buyerName : Option String
  preTaxTotal : Option Int
  taxTotal : Option Int
  grandTotal : Option Int
  status : Option String
deriving DecidableEq

/-- Applying an `updateInvoice` patch to a row. -/
def applyUpdate (u : UpdateInvoiceData) (i : Invoice) : Invoice :=
  { i with
      yearMonth := u.yearMonth.getD i.yearMonth
      buyerName := u.buyerName.getD i.buyerName
      preTaxTotal := u.preTaxTotal.getD i.preTaxTotal
      taxTotal := u.taxTotal.getD i.taxTotal
      grandTotal := u.grandTotal.getD i.grandTotal
      status := u.status.getD i.status }

/-- Embeds `InvoiceService.updateInvoice`. -/
def updateInvoice (invoiceId : Nat) (updateData : UpdateInvoiceData) (userId : String)
    (db0 : DB) : Except String Invoice × DB :=
  match db0.invoices.find? (fun i => i.id == invoiceId) with
  | none => (Except.error invoiceMissingMsg, db0)
  | some existingInvoice =>
    if existingInvoice.status ≠ "draft" then
      (Except.error draftOnlyMsg, db0)
    else
      let db1 :=
        { db0 with
            invoices := db0.invoices.map fun (i : Invoice) =>
              if i.id == invoiceId then applyUpdate updateData i else i }
      let db2 :=
        { db1 with
            auditLogs := db1.auditLogs ++
              [{ userId := userId
                 action := "UPDATE_INVOICE"
                 resourceType := "invoice"
                 resourceId := some (numToString invoiceId) }] }
      (Except.ok (applyUpdate updateData existingInvoice), db2)

/-- Embeds `InvoiceService.voidInvoice`.  The lookup and both guards run
before the transaction; the status flip, the stat adjustment and the audit
entry run inside it. -/
def voidInvoice (now : JsDate) (invoiceId : Nat) (reason : String) (userId : String)
    (db0 : DB) : Except String Unit × DB :=
  match db0.invoices.find? (fun i => i.id == invoiceId) with
  | none => (Except.error invoiceMissingMsg, db0)
  | some invoice =>
    if invoice.status == "voided" then
      (Except.error alreadyVoidedMsg, db0)
    else
      let db1 :=
        { db0 with
            invoices := db0.invoices.map fun i =>
              if i.id == invoiceId then
                { i with status := "voided", voidedAt := some now, voidReason := some reason }
              else i }
      let prevAmount := invoice.grandTotal
      let db2 := updateAnnualStats userId (-prevAmount) invoice.yearMonth db1
      let db3 :=
        { db2 with
            auditLogs := db2.auditLogs ++
              [{ userId := userId
                 action := "VOID_INVOICE"
                 resourceType := "invoice"
                 resourceId := some (numToString invoiceId) }] }
      (Except.ok (), db3)

/-- Embeds `InvoiceNumberService.voidInvoiceNumber` (void by invoice number;
no stat adjustment in the source). -/
def voidInvoiceNumber (now : JsDate) (invoiceNumber : String) (reason : String)
    (db0 : DB) : Except String Unit × DB :=
  match db0.invoices.find? (fun i => i.invoiceNumber == invoiceNumber) with
  | none => (Except.error invoiceMissingMsg, db0)
  | some invoice =>
    if invoice.status == "voided" then
      (Except.error alreadyVoidedMsg, db0)
    else
      (Except.ok (),
        { db0 with
            invoices := db0.invoices.map fun i =>
              if i.invoiceNumber == invoiceNumber then
                { i with status := "voided", voidedAt := some now, voidReason := some reason }
              else i })

/-- Embeds `InvoiceService.batchUploadInvoices` with the stubbed
tax-authority upload always succeeding: every issued, not yet uploaded
invoice of the period gets its `uploadedAt` stamped. -/
def batchUploadInvoices (now : JsDate) (yearMonth : String) (userId : String)
    (db0 : DB) : (Nat × Nat) × DB :=
  let toUpload := db0.invoices.filter fun (i : Invoice) =>
    i.yearMonth == yearMonth && i.status == "issued" && i.uploadedAt == none
  let db1 :=
    { db0 with
        invoices := db0.invoices.map fun (i : Invoice) =>
          if i.yearMonth == yearMonth && i.status == "issued" && i.uploadedAt == none then
            { i with uploadedAt := some now }
          else i }
  let db2 :=
    { db1 with
        auditLogs := db1.auditLogs ++
          [{ userId := userId
             action := "BATCH_UPLOAD"
             resourceType := "invoice"
             resourceId := none }] }
  ((toUpload.length, 0), db2)

/-- The row filter of `getAnnualStats`: issued invoices whose issue timestamp
lies between January 1 and December 31 of the year, optionally restricted to
one user.  (`new Date(year, 0, 1)` and `new Date(year, 11, 31)` use 0-based
month indices.) -/
def annualFilter (year : Nat) (userId : Option String) (i : Invoice) : Bool :=
  (match i.issuedAt with
    | some d => dateLe { year := year, monthIndex := 0, day := 1 } d
        && dateLe d { year := year, monthIndex := 11, day := 31 }
    | none => false)
  && i.status == "issued"
  && (match userId with
      | some u => i.userId == u
      | none => true)

/-- The result record of `getAnnualStats`. -/
structure AnnualStatsResult where
  year : Nat
  totalRevenue : Int
  totalInvoices : Int
  isNearLimit : Bool
  warningThreshold : Int
deriving DecidableEq

/-- Embeds `InvoiceNumberService.getAnnualStats`.  The source aggregates
`sum(invoices.grandTotal)` and — as written — `sum(invoices.id)`, then
compares the revenue with `warningThreshold * 0.9`, which the source's float
arithmetic evaluates to exactly 4320000; the comparison is modelled as
`10 * revenue > 9 * threshold` over `Int`. -/
def getAnnualStats (year : Nat) (userId : Option String) (db0 : DB) : AnnualStatsResult :=
  let rows := db0.invoices.filter (annualFilter year userId)
  let totalRevenue := (rows.map Invoice.grandTotal).sum
  let totalInvoices := (rows.map fun i => (i.id : Int)).sum
  let warningThreshold : Int := 4800000
  { year := year
    totalRevenue := totalRevenue
    totalInvoices := totalInvoices
    isNearLimit := 10 * totalRevenue > 9 * warningThreshold
    warningThreshold := warningThreshold }

/-! ### Permission gate (`AuthService.checkPermission`) -/

def operatorPermissions : List String :=
  ["CREATE_INVOICE", "READ_INVOICE", "UPDATE_INVOICE", "VOID_INVOICE", "EXPORT_DATA"]

/-- Embeds `AuthService.checkPermission` (the `resourceType` argument is
never read by the source body). -/
def checkPermission (userId : String) (action : String) (resourceType : String)
    (db0 : DB) : Bool :=
  match db0.users.find? (fun u => u.id == userId) with
  | none => false
  | some user =>
    if ¬ user.isActive then false
    else if user.role == "admin" then true
    else if user.role == "operator" then operatorPermissions.contains action
    else false

/-! ### Specification-side definitions and claim-support predicates -/

/-- The spec's period-label table: period `q` (1 through 6) of a year is
labelled by the year followed by the zero-padded start month
`(q - 1) * 2 + 1` and end month `q * 2`. -/
def specPeriodLabel (year q : Nat) : String :=
  numToString year ++ padStart 2 zeroChar (numToString ((q - 1) * 2 + 1))
    ++ padStart 2 zeroChar (numToString (q * 2))

/-- The annual-stat row of a user and year (first match). -/
def statFor (db : DB) (uid : String) (year : Nat) : Option AnnualStat :=
  db.annualStats.find? (fun s => s.userId == uid && s.year == year)

/-- The recorded running revenue of a user and year, 0 when no row exists. -/
def revenueFor (db : DB) (uid : String) (year : Nat) : Int :=
  ((statFor db uid year).map AnnualStat.totalRevenue).getD 0

/-- The status of the invoice with a given id. -/
def statusOf (db : DB) (invoiceId : Nat) : Option String :=
  (db.invoices.find? (fun x => x.id == invoiceId)).map Invoice.status

/-- The number-range invariant of the spec:
`start ≤ cursor ≤ end + 1`. -/
def RangeInv (r : NumberRange) : Prop :=
  r.startNumber ≤ r.currentNumber ∧ r.currentNumber ≤ r.endNumber + 1

/-- Well-formedness of the `invoice_numbers` table: the `serial` primary keys
are distinct and every row satisfies the range invariant. -/
def RangesWF (db : DB) : Prop :=
  (db.invoiceNumbers.map NumberRange.id).Nodup ∧ ∀ r ∈ db.invoiceNumbers, RangeInv r

/-- Cursors never decrease: every range id present before is present after,
with a cursor at least as large. -/
def cursorMono (l l2 : List NumberRange) : Prop :=
  ∀ rid r, l.find? (fun x => x.id == rid) = some r →
    ∃ r2, l2.find? (fun x => x.id == rid) = some r2 ∧ r.currentNumber ≤ r2.currentNumber

/-- `allocateK rid k db`: the database after `k` successive allocation calls
on range `rid`. -/
def allocateK (rid : Nat) : Nat → DB → DB
  | 0, db => db
  | k + 1, db => allocateK rid k (allocateNextNumber rid db).2

/-! ### Shared concrete sample data (used by witnesses and counterexamples) -/

def emptyDB : DB :=
  { users := [], invoiceNumbers := [], invoices := [], invoiceItems := []
    annualStats := [], auditLogs := [] }

def sampleDate : JsDate := { year := 2025, monthIndex := 0, day := 15 }

def sampleData : InsertInvoiceData :=
  { yearMonth := "20250102", buyerName := "somebody", preTaxTotal := 476
    taxTotal := 24, grandTotal := 500, issuedAt := none }

def zeroData : InsertInvoiceData := { sampleData with grandTotal := 0 }

def sampleIssued : Invoice :=
  { id := 1, invoiceNumber := "25010210000001", yearMonth := "20250102"
    buyerName := "somebody", preTaxTotal := 476, taxTotal := 24, grandTotal := 500
    status := "issued", userId := "u1", issuedAt := some sampleDate
    voidedAt := none, voidReason := none, uploadedAt := none }

def dbWithIssued : DB := { emptyDB with invoices := [sampleIssued] }

def dbTwoIssued : DB :=
  { emptyDB with
      invoices := [sampleIssued,
        { sampleIssued with id := 2, invoiceNumber := "25010210000002", grandTotal := 200 }] }

def sampleRange : NumberRange :=
  { id := 1, yearMonth := "20250102", prefix_ := "250102", startNumber := 10000001
    endNumber := 10000500, currentNumber := 10000001, isActive := true }

def dbWithRange : DB := { emptyDB with invoiceNumbers := [sampleRange] }

def sampleVoided : Invoice := { sampleIssued with status := "voided" }

def dbWithVoided : DB := { emptyDB with invoices := [sampleVoided] }

/-- The invoice `createInvoice sampleDate sampleData [] "u1" emptyDB` issues. -/
def sampleCreated : Invoice :=
  { id := 1, invoiceNumber := "25010210000001", yearMonth := "20250102"
    buyerName := "somebody", preTaxTotal := 476, taxTotal := 24, grandTotal := 500
    status := "issued", userId := "u1", issuedAt := some sampleDate
    voidedAt := none, voidReason := none, uploadedAt := none }

/-- The invoice `createInvoice sampleDate zeroData [] "u1" emptyDB` issues. -/
def zeroCreated : Invoice := { sampleCreated with grandTotal := 0 }

def dbUsers : DB :=
  { emptyDB with
      users := [
        { id := "a1", username := "admin", role := "admin", isActive := true },
        { id := "o1", username := "operator", role := "operator", isActive := true },
        { id := "g1", username := "guest", role := "viewer", isActive := true },
        { id := "a2", username := "admin2", role := "admin", isActive := false }] }

/-! ### Named subterms of the `createInvoice` success path (proof plumbing) -/

/-- The invoice row `createInvoice` inserts once the allocator returned
`num` on store `db1`. -/
def builtInvoice (now : JsDate) (data : InsertInvoiceData) (uid num : String)
    (db1 : DB) : Invoice :=
  { id := nextId (db1.invoices.map Invoice.id)
    invoiceNumber := num
    yearMonth := data.yearMonth
    buyerName := data.buyerName
    preTaxTotal := data.preTaxTotal
    taxTotal := data.taxTotal
    grandTotal := data.grandTotal
    status := "issued"
    userId := uid
    issuedAt := some (data.issuedAt.getD now)
    voidedAt := none
    voidReason := none
    uploadedAt := none }

/-- The item rows `createInvoice` inserts for invoice id `invId`. -/
def builtItems (items : List NewItem) (invId : Nat) : List InvoiceItem :=
  items.map fun item =>
    { id := 0
      sessionId := "invoice_" ++ numToString invId
      invoiceId := some invId
      description := item.description
      category := item.category
      preTaxAmount := item.preTaxAmount
      taxAmount := item.taxAmount
      totalAmount := item.totalAmount }

/-- The store after the invoice and item inserts of `createInvoice`, before
the stat update and the audit entry. -/
def builtDb3 (now : JsDate) (data : InsertInvoiceData) (items : List NewItem)
    (uid num : String) (db1 : DB) : DB :=
  { db1 with
      invoices := db1.invoices ++ [builtInvoice now data uid num db1]
      invoiceItems := db1.invoiceItems ++
        builtItems items (builtInvoice now data uid num db1).id }

/-! ### Named subterms of the `voidInvoice` success path (proof plumbing) -/

/-- The invoice table after `voidInvoice` flips the row with id `invId`. -/
def voidedInvoices (now : JsDate) (invId : Nat) (reason : String)
    (l : List Invoice) : List Invoice :=
  l.map fun i =>
    if i.id == invId then
      { i with status := "voided", voidedAt := some now, voidReason := some reason }
    else i

/-- The store after the status flip of `voidInvoice`, before the stat update
and the audit entry. -/
def builtVoidDb1 (now : JsDate) (invId : Nat) (reason : String) (db : DB) : DB :=
  { db with invoices := voidedInvoices now invId reason db.invoices }

/-! ### Helper lemmas: lists, ids and string lengths -/

theorem find?_map_pred {α : Type} (f : α → α) (p : α → Bool)
    (hp : ∀ x, p (f x) = p x) (l : List α) :
    (l.map f).find? p = (l.find? p).map f := by
  induction l with
  | nil => rfl
  | cons a t ih =>
    by_cases h : p a = true
    · simp [List.find?_cons, hp, h]
    · simp only [List.map_cons, List.find?_cons, hp, h]
      simpa [h] using ih

theorem find?_map_fix {α : Type} (f : α → α) (p : α → Bool)
    (hp : ∀ x, p (f x) = p x) (hfix : ∀ x, p x = true → f x = x) (l : List α) :
    (l.map f).find? p = l.find? p := by
  rw [find?_map_pred f p hp l]
  cases h : l.find? p with
  | none => rfl
  | some a => simp [hfix a (List.find?_some h)]

theorem find?_append_none {α : Type} (p : α → Bool) (l l2 : List α)
    (h : l.find? p = none) : (l ++ l2).find? p = l2.find? p := by
  rw [List.find?_append, h, Option.none_or]

theorem find?_append_some {α : Type} (p : α → Bool) (l l2 : List α) (a : α)
    (h : l.find? p = some a) : (l ++ l2).find? p = some a := by
  rw [List.find?_append, h]
  rfl

theorem le_foldr_max (ids : List Nat) : ∀ x ∈ ids, x ≤ ids.foldr max 0 := by
  induction ids with
  | nil => simp
  | cons a t ih =>
    intro x hx
    rcases List.mem_cons.mp hx with h | h
    · subst h; exact le_max_left _ _
    · exact le_trans (ih x h) (le_max_right _ _)

theorem nextId_fresh (ids : List Nat) : ∀ x ∈ ids, x ≠ nextId ids := by
  intro x hx
  have := le_foldr_max ids x hx
  unfold nextId
  omega

theorem length_mk (l : List Char) : (String.mk l).length = l.length := rfl

theorem padStart_length (w : Nat) (c : Char) (s : String) :
    (padStart w c s).length = max w s.length := by
  rw [padStart, String.length_append, length_mk, List.length_replicate]
  omega

theorem decDigitsCore_length (e : Nat) :
    ∀ n fuel acc, n < fuel → 10 ^ e ≤ n → n < 10 ^ (e + 1) →
      (decDigitsCore fuel n acc).length = e + 1 + acc.length := by
  induction e with
  | zero =>
    intro n fuel acc hfuel h1 h2
    match fuel, hfuel with
    | fuel + 1, _ =>
      have hn : n < 10 := by simpa using h2
      simp [decDigitsCore, hn]
      omega
  | succ e ih =>
    intro n fuel acc hfuel h1 h2
    match fuel, hfuel with
    | fuel + 1, hfuel =>
      have hpow : (10 : Nat) ^ 1 ≤ 10 ^ (e + 1) := Nat.pow_le_pow_right (by norm_num) (by omega)
      have h10 : 10 ≤ n := le_trans (by simpa using hpow) h1
      have hn10 : ¬ n < 10 := by omega
      have hdiv : n / 10 < n := Nat.div_lt_self (by omega) (by norm_num)
      rw [decDigitsCore, if_neg hn10,
        ih (n / 10) fuel (digitChar (n % 10) :: acc) (by omega)
          ((Nat.le_div_iff_mul_le (by norm_num)).mpr (by rw [← pow_succ]; exact h1))
          ((Nat.div_lt_iff_lt_mul (by norm_num)).mpr (by rw [← pow_succ]; exact h2))]
      simp [List.length_cons]
      omega

theorem numToString_length (e n : Nat) (h1 : 10 ^ e ≤ n) (h2 : n < 10 ^ (e + 1)) :
    (numToString n).length = e + 1 := by
  have := decDigitsCore_length e n (n + 1) [] (Nat.lt_succ_self n) h1 h2
  simpa [numToString, length_mk] using this

theorem numToString_length_one (n : Nat) (h : n < 10) : (numToString n).length = 1 := by
  simp [numToString, decDigitsCore, h, length_mk]

theorem pad2_length (n : Nat) (h : n < 100) :
    (padStart 2 zeroChar (numToString n)).length = 2 := by
  rw [padStart_length]
  by_cases h10 : n < 10
  · rw [numToString_length_one n h10]; omega
  · rw [numToString_length 1 n (by omega) (by norm_num; omega)]; omega

theorem label_length (y a b : Nat) (hy1 : 1000 ≤ y) (hy2 : y < 10000)
    (ha : a < 100) (hb : b < 100) :
    (numToString y ++ padStart 2 zeroChar (numToString a)
      ++ padStart 2 zeroChar (numToString b)).length = 8 := by
  rw [String.length_append, String.length_append,
    numToString_length 3 y (by norm_num; omega) (by norm_num; omega),
    pad2_length a ha, pad2_length b hb]

/-! ### Helper lemmas: the allocator -/

theorem allocate_missing (rid : Nat) (db : DB)
    (h : db.invoiceNumbers.find? (fun x => x.id == rid) = none) :
    allocateNextNumber rid db = (Except.error rangeMissingMsg, db) := by
  simp [allocateNextNumber, h]

theorem allocate_exhausted (rid : Nat) (db : DB) (r : NumberRange)
    (h : db.invoiceNumbers.find? (fun x => x.id == rid) = some r)
    (hgt : r.endNumber < r.currentNumber) :
    allocateNextNumber rid db = (Except.error rangeExhaustedMsg, db) := by
  simp [allocateNextNumber, h, hgt]

theorem allocate_ok (rid : Nat) (db : DB) (r : NumberRange)
    (h : db.invoiceNumbers.find? (fun x => x.id == rid) = some r)
    (hle : r.currentNumber ≤ r.endNumber) :
    allocateNextNumber rid db =
      (Except.ok (NumberRange.prefix_ r ++ padStart 8 zeroChar (numToString r.currentNumber)),
        { db with
            invoiceNumbers := db.invoiceNumbers.map fun x =>
              if x.id == rid then { x with currentNumber := r.currentNumber + 1 } else x }) := by
  simp [allocateNextNumber, h, Nat.not_lt.mpr hle]

theorem find?_update_cursor (l : List NumberRange) (rid c : Nat) :
    (l.map fun x => if x.id == rid then { x with currentNumber := c } else x).find?
        (fun x => x.id == rid) =
      (l.find? (fun x => x.id == rid)).map fun x => { x with currentNumber := c } := by
  have hp : ∀ x : NumberRange,
      ((if x.id == rid then { x with currentNumber := c } else x).id == rid) = (x.id == rid) := by
    intro x
    by_cases h : (x.id == rid) = true <;> simp [h]
  rw [find?_map_pred _ _ hp l]
  cases hfind : l.find? (fun x => x.id == rid) with
  | none => rfl
  | some a =>
    have ha : a.id = rid := by simpa using List.find?_some hfind
    simp [ha]

theorem cursor_update_collapse (r : NumberRange) (a b : Nat) :
    ({ { r with currentNumber := a } with currentNumber := b } : NumberRange)
      = { r with currentNumber := b } := by
  cases r
  simp

theorem cursor_update_self (r : NumberRange) :
    ({ r with currentNumber := r.currentNumber } : NumberRange) = r := by
  cases r
  simp

theorem allocateK_find (rid : Nat) :
    ∀ (k : Nat) (db : DB) (r : NumberRange),
      db.invoiceNumbers.find? (fun x => x.id == rid) = some r →
      r.currentNumber + k ≤ r.endNumber + 1 →
      (allocateK rid k db).invoiceNumbers.find? (fun x => x.id == rid)
        = some { r with currentNumber := r.currentNumber + k } := by
  intro k
  induction k with
  | zero =>
    intro db r h _
    have hr : ({ r with currentNumber := r.currentNumber + 0 } : NumberRange) = r := by
      rw [Nat.add_zero, cursor_update_self]
    rw [allocateK, hr]
    exact h
  | succ k ih =>
    intro db r h hle
    have hle1 : r.currentNumber ≤ r.endNumber := by omega
    rw [allocateK, allocate_ok rid db r h hle1]
    have hfind :
        ({ db with
            invoiceNumbers := db.invoiceNumbers.map fun x =>
              if x.id == rid then { x with currentNumber := r.currentNumber + 1 } else x } :
          DB).invoiceNumbers.find? (fun x => x.id == rid)
          = some { r with currentNumber := r.currentNumber + 1 } := by
      show (db.invoiceNumbers.map _).find? _ = _
      rw [find?_update_cursor, h]
      rfl
    have hstep := ih _ { r with currentNumber := r.currentNumber + 1 } hfind (by simp; omega)
    rw [hstep, cursor_update_collapse]
    have : r.currentNumber + 1 + k = r.currentNumber + (k + 1) := by omega
    rw [this]

theorem getOrCreate_fresh (ym : String) (db : DB)
    (h : db.invoiceNumbers.find? (fun r => r.yearMonth == ym && r.isActive) = none) :
    getOrCreateNumberRange ym db = downloadNewNumberRange ym db := by
  simp [getOrCreateNumberRange, h]

theorem find?_new_range (ym : String) (db : DB) :
    ((downloadNewNumberRange ym db).2).invoiceNumbers.find?
        (fun x => x.id == (downloadNewNumberRange ym db).1.id)
      = some (downloadNewNumberRange ym db).1 := by
  unfold downloadNewNumberRange
  simp only []
  rw [find?_append_none]
  · simp
  · apply List.find?_eq_none.mpr
    intro x hx
    simp only [beq_iff_eq, Decidable.not_not]
    intro hid
    exact nextId_fresh (db.invoiceNumbers.map NumberRange.id) x.id
      (List.mem_map_of_mem NumberRange.id hx) hid

/-! ### Claim C1 -/

/-- C1: for a period with no active number range, acquiring a range
provisions one with `startNumber` 10000001, `endNumber` 10000500, cursor
equal to the start and prefix equal to the period label's trailing digits;
each of the first 500 allocation calls succeeds, returns the prefix followed
by the cursor zero-padded to 8 digits — a numeric part always inside
`[start, end]` — and increments the cursor by exactly one; the 501st call
fails with the range-exhausted error. -/
theorem C1_allocator_lifecycle (ym : String) (db : DB) (r : NumberRange) (db1 : DB)
    (hfresh : db.invoiceNumbers.find? (fun x => x.yearMonth == ym && x.isActive) = none)
    (hacq : getOrCreateNumberRange ym db = (r, db1)) :
    (r.startNumber = 10000001 ∧ r.endNumber = 10000500
      ∧ r.currentNumber = r.startNumber ∧ NumberRange.prefix_ r = ym.drop 2
      ∧ r.isActive = true ∧ r.yearMonth = ym)
    ∧ (∀ k, k < 500 →
        (allocateNextNumber r.id (allocateK r.id k db1)).1
          = Except.ok (ym.drop 2 ++ padStart 8 zeroChar (numToString (10000001 + k)))
        ∧ r.startNumber ≤ 10000001 + k ∧ 10000001 + k ≤ r.endNumber
        ∧ (allocateNextNumber r.id (allocateK r.id k db1)).2.invoiceNumbers.find?
            (fun x => x.id == r.id) = some { r with currentNumber := 10000001 + k + 1 })
    ∧ (allocateNextNumber r.id (allocateK r.id 500 db1)).1 = Except.error rangeExhaustedMsg := by
  rw [getOrCreate_fresh ym db hfresh] at hacq
  have hr : r = (downloadNewNumberRange ym db).1 := by rw [hacq]
  have hdb1 : db1 = (downloadNewNumberRange ym db).2 := by rw [hacq]
  have hfind0 : db1.invoiceNumbers.find? (fun x => x.id == r.id) = some r := by
    rw [hr, hdb1]; exact find?_new_range ym db
  have hvals : r.startNumber = 10000001 ∧ r.endNumber = 10000500
      ∧ r.currentNumber = 10000001 ∧ NumberRange.prefix_ r = ym.drop 2
      ∧ r.isActive = true ∧ r.yearMonth = ym := by
    rw [hr]; exact ⟨rfl, rfl, rfl, rfl, rfl, rfl⟩
  obtain ⟨hs, he, hc, hp, ha, hy⟩ := hvals
  refine ⟨⟨hs, he, by rw [hc, hs], hp, ha, hy⟩, ?_, ?_⟩
  · intro k hk
    have hfk : (allocateK r.id k db1).invoiceNumbers.find? (fun x => x.id == r.id)
        = some { r with currentNumber := r.currentNumber + k } :=
      allocateK_find r.id k db1 r hfind0 (by omega)
    have hfk' : (allocateK r.id k db1).invoiceNumbers.find? (fun x => x.id == r.id)
        = some { r with currentNumber := 10000001 + k } := by
      rw [hfk, hc]
    have hle : ({ r with currentNumber := 10000001 + k } : NumberRange).currentNumber
        ≤ ({ r with currentNumber := 10000001 + k } : NumberRange).endNumber := by
      simp [he]; omega
    have hok := allocate_ok r.id (allocateK r.id k db1) _ hfk' hle
    refine ⟨?_, by omega, by omega, ?_⟩
    · rw [hok]
      simp [hp]
    · rw [hok]
      show ((allocateK r.id k db1).invoiceNumbers.map fun x =>
          if x.id == r.id then { x with currentNumber := 10000001 + k + 1 } else x).find?
            (fun x => x.id == r.id) = _
      rw [find?_update_cursor, hfk']
      simp [cursor_update_collapse]
  · have hfk : (allocateK r.id 500 db1).invoiceNumbers.find? (fun x => x.id == r.id)
        = some { r with currentNumber := 10000001 + 500 } := by
      rw [allocateK_find r.id 500 db1 r hfind0 (by omega), hc]
    have := allocate_exhausted r.id (allocateK r.id 500 db1)
      { r with currentNumber := 10000001 + 500 } hfk (by simp [he])
    rw [this]

/-- Witness for C1: a concrete fresh provisioning in the empty store; the
first allocation returns the first number of the block. -/
theorem C1_allocator_lifecycle_witness :
    (allocateNextNumber sampleRange.id (allocateK sampleRange.id 0 dbWithRange)).1
      = Except.ok ("20250102".drop 2 ++ padStart 8 zeroChar (numToString (10000001 + 0))) :=
  ((C1_allocator_lifecycle "20250102" emptyDB sampleRange dbWithRange (by decide)
      (by decide)).2.1 0 (by decide)).1

/-! ### Frame lemmas: which tables an operation leaves untouched -/

theorem updateAnnualStats_frame (uid : String) (amount : Int) (ym : String) (db : DB) :
    (updateAnnualStats uid amount ym db).users = db.users
    ∧ (updateAnnualStats uid amount ym db).invoiceNumbers = db.invoiceNumbers
    ∧ (updateAnnualStats uid amount ym db).invoices = db.invoices
    ∧ (updateAnnualStats uid amount ym db).invoiceItems = db.invoiceItems
    ∧ (updateAnnualStats uid amount ym db).auditLogs = db.auditLogs := by
  unfold updateAnnualStats
  rcases hf : List.find? (fun s => s.userId == uid && s.year == parseDec (ym.take 4))
      db.annualStats with _ | st <;>
    simp [hf]

theorem download_frame (ym : String) (db : DB) :
    (downloadNewNumberRange ym db).2.users = db.users
    ∧ (downloadNewNumberRange ym db).2.invoices = db.invoices
    ∧ (downloadNewNumberRange ym db).2.invoiceItems = db.invoiceItems
    ∧ (downloadNewNumberRange ym db).2.annualStats = db.annualStats
    ∧ (downloadNewNumberRange ym db).2.auditLogs = db.auditLogs := by
  unfold downloadNewNumberRange
  simp

theorem getOrCreate_frame (ym : String) (db : DB) :
    (getOrCreateNumberRange ym db).2.users = db.users
    ∧ (getOrCreateNumberRange ym db).2.invoices = db.invoices
    ∧ (getOrCreateNumberRange ym db).2.invoiceItems = db.invoiceItems
    ∧ (getOrCreateNumberRange ym db).2.annualStats = db.annualStats
    ∧ (getOrCreateNumberRange ym db).2.auditLogs = db.auditLogs := by
  unfold getOrCreateNumberRange
  split
  · simp
  · exact download_frame ym db

theorem allocate_frame (rid : Nat) (db : DB) :
    (allocateNextNumber rid db).2.users = db.users
    ∧ (allocateNextNumber rid db).2.invoices = db.invoices
    ∧ (allocateNextNumber rid db).2.invoiceItems = db.invoiceItems
    ∧ (allocateNextNumber rid db).2.annualStats = db.annualStats
    ∧ (allocateNextNumber rid db).2.auditLogs = db.auditLogs := by
  unfold allocateNextNumber
  split
  · simp
  · split <;> simp

theorem getAvailable_frame (now : JsDate) (ym : String) (db : DB) :
    (getAvailableInvoiceNumber now ym db).2.users = db.users
    ∧ (getAvailableInvoiceNumber now ym db).2.invoices = db.invoices
    ∧ (getAvailableInvoiceNumber now ym db).2.invoiceItems = db.invoiceItems
    ∧ (getAvailableInvoiceNumber now ym db).2.annualStats = db.annualStats
    ∧ (getAvailableInvoiceNumber now ym db).2.auditLogs = db.auditLogs := by
  have halloc : ∀ db2 : DB,
      (allocateForPeriod ym db2).2.users = db2.users
      ∧ (allocateForPeriod ym db2).2.invoices = db2.invoices
      ∧ (allocateForPeriod ym db2).2.invoiceItems = db2.invoiceItems
      ∧ (allocateForPeriod ym db2).2.annualStats = db2.annualStats
      ∧ (allocateForPeriod ym db2).2.auditLogs = db2.auditLogs := by
    intro db2
    have h1 := getOrCreate_frame ym db2
    have h2 := allocate_frame (getOrCreateNumberRange ym db2).1.id
      (getOrCreateNumberRange ym db2).2
    unfold allocateForPeriod
    refine ⟨?_, ?_, ?_, ?_, ?_⟩ <;> simp only [h2.1, h2.2.1, h2.2.2.1, h2.2.2.2.1, h2.2.2.2.2,
      h1.1, h1.2.1, h1.2.2.1, h1.2.2.2.1, h1.2.2.2.2]
  unfold getAvailableInvoiceNumber
  by_cases hcur : ym ≠ getCurrentYearMonth now
  · by_cases hgate : ¬ canOpenNextPeriodInvoice now = true
    · simp [hcur, hgate]
    · by_cases hnext : ym ≠ getNextYearMonth now
      · simp [hcur, hgate, hnext]
      · simp only [hcur, hgate, hnext, if_true, if_false]
        simpa using halloc db
  · simp only [hcur, if_false]
    simpa [hcur] using halloc db

/-! ### Helper lemmas: the period gate branches of `getAvailableInvoiceNumber` -/

theorem getAvailable_current (now : JsDate) (ym : String) (db : DB)
    (hcur : ym = getCurrentYearMonth now) :
    getAvailableInvoiceNumber now ym db = allocateForPeriod ym db := by
  simp [getAvailableInvoiceNumber, hcur]

theorem getAvailable_gate_closed (now : JsDate) (ym : String) (db : DB)
    (hcur : ym ≠ getCurrentYearMonth now) (hday : now.day < 20) :
    getAvailableInvoiceNumber now ym db = (Except.error periodNotOpenMsg, db) := by
  have hgate : ¬ canOpenNextPeriodInvoice now = true := by
    simp [canOpenNextPeriodInvoice]
    omega
  simp [getAvailableInvoiceNumber, hcur, hgate]

theorem getAvailable_next (now : JsDate) (ym : String) (db : DB)
    (hcur : ym ≠ getCurrentYearMonth now) (hday : 20 ≤ now.day)
    (hnext : ym = getNextYearMonth now) :
    getAvailableInvoiceNumber now ym db = allocateForPeriod ym db := by
  have hgate : canOpenNextPeriodInvoice now = true := by
    simp [canOpenNextPeriodInvoice]
    omega
  simp [getAvailableInvoiceNumber, hcur, hgate, hnext]

theorem getAvailable_invalid (now : JsDate) (ym : String) (db : DB)
    (hcur : ym ≠ getCurrentYearMonth now) (hday : 20 ≤ now.day)
    (hnext : ym ≠ getNextYearMonth now) :
    getAvailableInvoiceNumber now ym db = (Except.error onlyCurrentOrNextMsg, db) := by
  have hgate : canOpenNextPeriodInvoice now = true := by
    simp [canOpenNextPeriodInvoice]
    omega
  simp [getAvailableInvoiceNumber, hcur, hgate, hnext]

/-! ### Helper lemmas: preservation of the range invariant -/

theorem cursorMono_refl (l : List NumberRange) : cursorMono l l :=
  fun _ r h => ⟨r, h, le_refl _⟩

theorem cursorMono_trans {l1 l2 l3 : List NumberRange}
    (h12 : cursorMono l1 l2) (h23 : cursorMono l2 l3) : cursorMono l1 l3 := by
  intro rid r h
  obtain ⟨r2, h2, le2⟩ := h12 rid r h
  obtain ⟨r3, h3, le3⟩ := h23 rid r2 h2
  exact ⟨r3, h3, le_trans le2 le3⟩

theorem download_ranges (ym : String) (db : DB) :
    (downloadNewNumberRange ym db).2.invoiceNumbers
      = db.invoiceNumbers ++ [(downloadNewNumberRange ym db).1] := rfl

theorem download_range_id (ym : String) (db : DB) :
    (downloadNewNumberRange ym db).1.id = nextId (db.invoiceNumbers.map NumberRange.id) := rfl

theorem download_range_inv (ym : String) (db : DB) :
    RangeInv (downloadNewNumberRange ym db).1 := by
  constructor
  · show (10000001 : Nat) ≤ 10000001
    exact le_refl _
  · show (10000001 : Nat) ≤ 10000500 + 1
    omega

theorem RangesWF_download (ym : String) (db : DB) (h : RangesWF db) :
    RangesWF (downloadNewNumberRange ym db).2
    ∧ cursorMono db.invoiceNumbers (downloadNewNumberRange ym db).2.invoiceNumbers := by
  obtain ⟨hnd, hinv⟩ := h
  refine ⟨⟨?_, ?_⟩, ?_⟩
  · rw [download_ranges, List.map_append, List.nodup_append]
    refine ⟨hnd, by simp, ?_⟩
    intro a ha hb
    simp only [List.map_cons, List.map_nil, List.mem_cons, List.not_mem_nil, or_false] at hb
    rw [download_range_id] at hb
    exact nextId_fresh _ a ha hb
  · rw [download_ranges]
    intro x hx
    rcases List.mem_append.mp hx with hx | hx
    · exact hinv x hx
    · rw [List.mem_singleton.mp hx]
      exact download_range_inv ym db
  · rw [download_ranges]
    intro rid r hr
    exact ⟨r, find?_append_some _ _ _ _ hr, le_refl _⟩

theorem wf_map_update (l : List NumberRange) (rid : Nat) (r : NumberRange)
    (hf : l.find? (fun x => x.id == rid) = some r)
    (hle : r.currentNumber ≤ r.endNumber)
    (hnd : (l.map NumberRange.id).Nodup)
    (hinv : ∀ x ∈ l, RangeInv x) :
    ((l.map fun x =>
        if x.id == rid then { x with currentNumber := r.currentNumber + 1 } else x).map
          NumberRange.id).Nodup
    ∧ (∀ x ∈ l.map fun x =>
          if x.id == rid then { x with currentNumber := r.currentNumber + 1 } else x,
        RangeInv x)
    ∧ cursorMono l
        (l.map fun x =>
          if x.id == rid then { x with currentNumber := r.currentNumber + 1 } else x) := by
  have hrmem : r ∈ l := List.mem_of_find?_eq_some hf
  have hrid : r.id = rid := by simpa using List.find?_some hf
  have hids : ∀ x : NumberRange,
      (if x.id == rid then ({ x with currentNumber := r.currentNumber + 1 } : NumberRange)
        else x).id = x.id := by
    intro x
    by_cases hx : (x.id == rid) = true <;> simp [hx]
  refine ⟨?_, ?_, ?_⟩
  · rw [List.map_map]
    have heq : l.map (NumberRange.id ∘ fun x =>
        if x.id == rid then { x with currentNumber := r.currentNumber + 1 } else x)
        = l.map NumberRange.id :=
      List.map_congr_left (fun x _ => hids x)
    rw [heq]
    exact hnd
  · intro x' hx'
    rcases List.mem_map.mp hx' with ⟨x, hxmem, rfl⟩
    by_cases hx : (x.id == rid) = true
    · have hxr : x = r :=
        List.inj_on_of_nodup_map hnd hxmem hrmem (by rw [hrid]; simpa using hx)
      subst hxr
      obtain ⟨h1, h2⟩ := hinv x hxmem
      rw [if_pos hx]
      exact ⟨by simp; omega, by simp; omega⟩
    · rw [if_neg hx]
      exact hinv x hxmem
  · intro rid2 r2 hr2
    have hp : ∀ x : NumberRange,
        ((if x.id == rid then ({ x with currentNumber := r.currentNumber + 1 } : NumberRange)
          else x).id == rid2) = (x.id == rid2) := by
      intro x
      rw [hids x]
    refine ⟨if r2.id == rid then { r2 with currentNumber := r.currentNumber + 1 } else r2,
      ?_, ?_⟩
    · rw [find?_map_pred _ _ hp l, hr2]
      rfl
    · by_cases hx : (r2.id == rid) = true
      · have hxr : r2 = r :=
          List.inj_on_of_nodup_map hnd (List.mem_of_find?_eq_some hr2) hrmem
            (by rw [hrid]; simpa using hx)
        subst hxr
        rw [if_pos hx]
        simp
      · rw [if_neg hx]

theorem RangesWF_allocate (rid : Nat) (db : DB) (h : RangesWF db) :
    RangesWF (allocateNextNumber rid db).2
    ∧ cursorMono db.invoiceNumbers (allocateNextNumber rid db).2.invoiceNumbers := by
  obtain ⟨hnd, hinv⟩ := h
  cases hf : db.invoiceNumbers.find? (fun x => x.id == rid) with
  | none =>
    rw [allocate_missing rid db hf]
    exact ⟨⟨hnd, hinv⟩, cursorMono_refl _⟩
  | some r =>
    by_cases hgt : r.endNumber < r.currentNumber
    · rw [allocate_exhausted rid db r hf hgt]
      exact ⟨⟨hnd, hinv⟩, cursorMono_refl _⟩
    · have hle : r.currentNumber ≤ r.endNumber := by omega
      rw [allocate_ok rid db r hf hle]
      have hw := wf_map_update db.invoiceNumbers rid r hf hle hnd hinv
      exact ⟨⟨hw.1, hw.2.1⟩, hw.2.2⟩

theorem RangesWF_getOrCreate (ym : String) (db : DB) (h : RangesWF db) :
    RangesWF (getOrCreateNumberRange ym db).2
    ∧ cursorMono db.invoiceNumbers (getOrCreateNumberRange ym db).2.invoiceNumbers := by
  unfold getOrCreateNumberRange
  rcases hf : List.find? (fun r => r.yearMonth == ym && r.isActive) db.invoiceNumbers with _ | r
  · simp only [hf]
    exact RangesWF_download ym db h
  · simp only [hf]
    exact ⟨h, cursorMono_refl _⟩

theorem RangesWF_allocateForPeriod (ym : String) (db : DB) (h : RangesWF db) :
    RangesWF (allocateForPeriod ym db).2
    ∧ cursorMono db.invoiceNumbers (allocateForPeriod ym db).2.invoiceNumbers := by
  have h1 := RangesWF_getOrCreate ym db h
  have h2 := RangesWF_allocate (getOrCreateNumberRange ym db).1.id
    (getOrCreateNumberRange ym db).2 h1.1
  exact ⟨h2.1, cursorMono_trans h1.2 h2.2⟩

theorem RangesWF_getAvailable (now : JsDate) (ym : String) (db : DB) (h : RangesWF db) :
    RangesWF (getAvailableInvoiceNumber now ym db).2
    ∧ cursorMono db.invoiceNumbers (getAvailableInvoiceNumber now ym db).2.invoiceNumbers := by
  by_cases hcur : ym = getCurrentYearMonth now
  · rw [getAvailable_current now ym db hcur]
    exact RangesWF_allocateForPeriod ym db h
  · by_cases hday : now.day < 20
    · rw [getAvailable_gate_closed now ym db hcur hday]
      exact ⟨h, cursorMono_refl _⟩
    · by_cases hnext : ym = getNextYearMonth now
      · rw [getAvailable_next now ym db hcur (by omega) hnext]
        exact RangesWF_allocateForPeriod ym db h
      · rw [getAvailable_invalid now ym db hcur (by omega) hnext]
        exact ⟨h, cursorMono_refl _⟩

theorem updateAnnualStats_ranges (uid : String) (amount : Int) (ym : String) (db : DB) :
    (updateAnnualStats uid amount ym db).invoiceNumbers = db.invoiceNumbers :=
  (updateAnnualStats_frame uid amount ym db).2.1

theorem voidInvoice_ranges (now : JsDate) (invId : Nat) (reason uid : String) (db : DB) :
    (voidInvoice now invId reason uid db).2.invoiceNumbers = db.invoiceNumbers := by
  unfold voidInvoice
  rcases hf : List.find? (fun i => i.id == invId) db.invoices with _ | inv
  · simp [hf]
  · simp only [hf]
    by_cases hv : (inv.status == "voided") = true
    · simp [hv]
    · simp [hv, updateAnnualStats_ranges]

theorem updateInvoice_ranges (invId : Nat) (upd : UpdateInvoiceData) (uid : String) (db : DB) :
    (updateInvoice invId upd uid db).2.invoiceNumbers = db.invoiceNumbers := by
  unfold updateInvoice
  rcases hf : List.find? (fun i => i.id == invId) db.invoices with _ | inv
  · simp [hf]
  · simp only [hf]
    by_cases hd : inv.status ≠ "draft"
    · simp [hd]
    · simp [hd]

theorem batchUpload_ranges (now : JsDate) (ym uid : String) (db : DB) :
    (batchUploadInvoices now ym uid db).2.invoiceNumbers = db.invoiceNumbers := by
  unfold batchUploadInvoices
  simp

theorem createInvoice_ranges (now : JsDate) (data : InsertInvoiceData) (items : List NewItem)
    (uid : String) (db : DB) :
    (createInvoice now data items uid db).2.invoiceNumbers
      = (getAvailableInvoiceNumber now data.yearMonth db).2.invoiceNumbers := by
  unfold createInvoice
  rcases hg : getAvailableInvoiceNumber now data.yearMonth db with ⟨res, db1⟩
  cases res with
  | error e => simp [hg]
  | ok num => simp [hg, updateAnnualStats_ranges]

/-! ### Claim C7 -/

/-- C7: every operation preserves the invariant `start ≤ cursor ≤ end + 1`
on a well-formed `invoice_numbers` table and never decreases any cursor: a
range is created with cursor equal to its start, an allocation increments
the cursor by exactly one when `cursor ≤ end`, an allocation on an exhausted
range (`cursor > end`) fails and writes nothing, and the remaining ledger
operations do not touch the table at all. -/
theorem C7_range_invariant :
    (∀ ym db, (downloadNewNumberRange ym db).1.currentNumber
        = (downloadNewNumberRange ym db).1.startNumber
      ∧ RangeInv (downloadNewNumberRange ym db).1)
    ∧ (∀ ym db, RangesWF db → RangesWF (downloadNewNumberRange ym db).2
        ∧ cursorMono db.invoiceNumbers (downloadNewNumberRange ym db).2.invoiceNumbers)
    ∧ (∀ ym db, RangesWF db → RangesWF (getOrCreateNumberRange ym db).2
        ∧ cursorMono db.invoiceNumbers (getOrCreateNumberRange ym db).2.invoiceNumbers)
    ∧ (∀ rid db, RangesWF db → RangesWF (allocateNextNumber rid db).2
        ∧ cursorMono db.invoiceNumbers (allocateNextNumber rid db).2.invoiceNumbers)
    ∧ (∀ rid db r, db.invoiceNumbers.find? (fun x => x.id == rid) = some r →
        r.currentNumber ≤ r.endNumber →
        (allocateNextNumber rid db).2.invoiceNumbers.find? (fun x => x.id == rid)
          = some { r with currentNumber := r.currentNumber + 1 })
    ∧ (∀ rid db r, db.invoiceNumbers.find? (fun x => x.id == rid) = some r →
        r.endNumber < r.currentNumber →
        allocateNextNumber rid db = (Except.error rangeExhaustedMsg, db))
    ∧ (∀ now ym db, RangesWF db → RangesWF (getAvailableInvoiceNumber now ym db).2
        ∧ cursorMono db.invoiceNumbers (getAvailableInvoiceNumber now ym db).2.invoiceNumbers)
    ∧ (∀ now data items uid db, RangesWF db →
        RangesWF (createInvoice now data items uid db).2
        ∧ cursorMono db.invoiceNumbers (createInvoice now data items uid db).2.invoiceNumbers)
    ∧ (∀ now invId reason uid db,
        (voidInvoice now invId reason uid db).2.invoiceNumbers = db.invoiceNumbers)
    ∧ (∀ invId upd uid db,
        (updateInvoice invId upd uid db).2.invoiceNumbers = db.invoiceNumbers)
    ∧ (∀ now ym uid db,
        (batchUploadInvoices now ym uid db).2.invoiceNumbers = db.invoiceNumbers) := by
  refine ⟨?_, ?_, ?_, ?_, ?_, ?_, ?_, ?_, ?_, ?_, ?_⟩
  · intro ym db
    exact ⟨rfl, download_range_inv ym db⟩
  · intro ym db h
    exact RangesWF_download ym db h
  · intro ym db h
    exact RangesWF_getOrCreate ym db h
  · intro rid db h
    exact RangesWF_allocate rid db h
  · intro rid db r hf hle
    rw [allocate_ok rid db r hf hle]
    show ((db.invoiceNumbers.map fun x =>
        if x.id == rid then { x with currentNumber := r.currentNumber + 1 } else x).find?
          (fun x => x.id == rid)) = _
    rw [find?_update_cursor, hf]
    rfl
  · intro rid db r hf hgt
    exact allocate_exhausted rid db r hf hgt
  · intro now ym db h
    exact RangesWF_getAvailable now ym db h
  · intro now data items uid db h
    have hr := RangesWF_getAvailable now data.yearMonth db h
    constructor
    · constructor
      · rw [createInvoice_ranges]
        exact hr.1.1
      · rw [createInvoice_ranges]
        exact hr.1.2
    · rw [createInvoice_ranges]
      exact hr.2
  · intro now invId reason uid db
    exact voidInvoice_ranges now invId reason uid db
  · intro invId upd uid db
    exact updateInvoice_ranges invId upd uid db
  · intro now ym uid db
    exact batchUpload_ranges now ym uid db

/-- Witness for C7: the invariant is preserved by a concrete allocation on a
concrete well-formed store. -/
theorem C7_range_invariant_witness :
    RangesWF (allocateNextNumber sampleRange.id dbWithRange).2 :=
  (C7_range_invariant.2.2.2.1 sampleRange.id dbWithRange
    (by
      refine ⟨by decide, ?_⟩
      intro r hr
      have hr' : r = sampleRange := by simpa [dbWithRange, emptyDB] using hr
      subst hr'
      exact ⟨by decide, by decide⟩)).1

/-! ### Claim C2 -/

/-- C2: a request for the current period always proceeds to allocation,
whatever the day of month; a request for any other period fails with the
period-not-yet-open error while the day of month is below 20; from day 20 on,
a request for the next period proceeds to allocation and a request for any
period that is neither current nor next fails with the only-current-or-next
error. -/
theorem C2_period_gate (now : JsDate) (req : String) (db : DB) :
    (req = getCurrentYearMonth now →
      getAvailableInvoiceNumber now req db = allocateForPeriod req db)
    ∧ (req ≠ getCurrentYearMonth now → now.day < 20 →
      getAvailableInvoiceNumber now req db = (Except.error periodNotOpenMsg, db))
    ∧ (req ≠ getCurrentYearMonth now → 20 ≤ now.day → req = getNextYearMonth now →
      getAvailableInvoiceNumber now req db = allocateForPeriod req db)
    ∧ (req ≠ getCurrentYearMonth now → 20 ≤ now.day → req ≠ getNextYearMonth now →
      getAvailableInvoiceNumber now req db = (Except.error onlyCurrentOrNextMsg, db)) :=
  ⟨fun h => getAvailable_current now req db h,
   fun h1 h2 => getAvailable_gate_closed now req db h1 h2,
   fun h1 h2 h3 => getAvailable_next now req db h1 h2 h3,
   fun h1 h2 h3 => getAvailable_invalid now req db h1 h2 h3⟩

/-- Witness for C2: on January 15 a request for the March-April period is
rejected with the period-not-yet-open error. -/
theorem C2_period_gate_witness :
    getAvailableInvoiceNumber sampleDate "20250304" emptyDB
      = (Except.error periodNotOpenMsg, emptyDB) :=
  (C2_period_gate sampleDate "20250304" emptyDB).2.1 (by decide) (by decide)

/-! ### Claim C3 -/

/-- C3: for every date, the current-period label is the year followed by the
zero-padded start month `(ceil(m/2) - 1) * 2 + 1` and end month
`ceil(m/2) * 2`, an 8-character string for 4-digit years; the next-period
label is the label of the following two-month period, wrapping from period 6
to period 1 of the next year; in particular January 2025 yields "20250102". -/
theorem C3_period_labels (d : JsDate) (hm : d.monthIndex < 12)
    (hy1 : 1000 ≤ d.year) (hy2 : d.year < 10000) :
    getCurrentYearMonth d = specPeriodLabel d.year ((d.monthIndex + 1 + 1) / 2)
    ∧ (getCurrentYearMonth d).length = 8
    ∧ getNextYearMonth d =
        (if (d.monthIndex + 1 + 1) / 2 = 6 then specPeriodLabel (d.year + 1) 1
          else specPeriodLabel d.year ((d.monthIndex + 1 + 1) / 2 + 1))
    ∧ getCurrentYearMonth { year := 2025, monthIndex := 0, day := 15 } = "20250102" := by
  have hwrap : getNextYearMonth d =
      (if (d.monthIndex + 1 + 1) / 2 = 6 then specPeriodLabel (d.year + 1) 1
        else specPeriodLabel d.year ((d.monthIndex + 1 + 1) / 2 + 1)) := by
    by_cases h6 : (d.monthIndex + 1 + 1) / 2 = 6
    · rw [if_pos h6]
      simp [getNextYearMonth, specPeriodLabel, h6]
    · rw [if_neg h6]
      have h7 : ¬ ((d.monthIndex + 1 + 1) / 2 + 1 > 6) := by omega
      simp [getNextYearMonth, specPeriodLabel, h7]
  refine ⟨rfl, ?_, hwrap, by decide⟩
  exact label_length d.year _ _ hy1 hy2 (by omega) (by omega)

/-- Witness for C3: the concrete January 2025 date has an 8-character
current-period label. -/
theorem C3_period_labels_witness :
    (getCurrentYearMonth sampleDate).length = 8 :=
  (C3_period_labels sampleDate (by decide) (by decide) (by decide)).2.1

/-! ### Helper lemmas: the annual-stat ledger -/

theorem statFor_congr {db db2 : DB} (h : db.annualStats = db2.annualStats)
    (uid : String) (y : Nat) : statFor db uid y = statFor db2 uid y := by
  unfold statFor
  rw [h]

theorem revenueFor_congr {db db2 : DB} (h : db.annualStats = db2.annualStats)
    (uid : String) (y : Nat) : revenueFor db uid y = revenueFor db2 uid y := by
  unfold revenueFor
  rw [statFor_congr h]

theorem updateAnnualStats_spec (uid : String) (amount : Int) (ym : String) (db : DB) :
    revenueFor (updateAnnualStats uid amount ym db) uid (parseDec (ym.take 4))
        = revenueFor db uid (parseDec (ym.take 4)) + amount
    ∧ (statFor db uid (parseDec (ym.take 4)) = none →
        ∃ s, statFor (updateAnnualStats uid amount ym db) uid (parseDec (ym.take 4)) = some s
          ∧ s.totalRevenue = amount
          ∧ s.totalInvoices = (if amount > 0 then 1 else 0))
    ∧ (∀ s0, statFor db uid (parseDec (ym.take 4)) = some s0 →
        ∃ s, statFor (updateAnnualStats uid amount ym db) uid (parseDec (ym.take 4)) = some s
          ∧ s.totalRevenue = s0.totalRevenue + amount
          ∧ s.totalInvoices = s0.totalInvoices + (if amount > 0 then 1 else -1)) := by
  rcases hf : List.find? (fun s => s.userId == uid && s.year == parseDec (ym.take 4))
      db.annualStats with _ | s0
  · have hres : updateAnnualStats uid amount ym db
        = { db with annualStats := db.annualStats ++
            [{ id := nextId (db.annualStats.map AnnualStat.id), userId := uid,
               year := parseDec (ym.take 4), totalRevenue := amount,
               totalInvoices := if amount > 0 then 1 else 0 }] } := by
      unfold updateAnnualStats
      simp only [hf]
    have hfind : statFor (updateAnnualStats uid amount ym db) uid (parseDec (ym.take 4))
        = some { id := nextId (db.annualStats.map AnnualStat.id), userId := uid,
                 year := parseDec (ym.take 4), totalRevenue := amount,
                 totalInvoices := if amount > 0 then 1 else 0 } := by
      rw [hres]
      unfold statFor
      show (db.annualStats ++ [_]).find? _ = _
      rw [find?_append_none _ _ _ hf]
      simp
    refine ⟨?_, ?_, ?_⟩
    · unfold revenueFor
      rw [hfind]
      unfold statFor
      rw [hf]
      simp
    · intro _
      exact ⟨_, hfind, rfl, rfl⟩
    · intro s1 hs1
      unfold statFor at hs1
      rw [hf] at hs1
      cases hs1
  · have hp : ∀ s : AnnualStat,
        ((if s.id == s0.id then
            ({ s with totalRevenue := s0.totalRevenue + amount,
                      totalInvoices := s0.totalInvoices + (if amount > 0 then 1 else -1) }
              : AnnualStat)
          else s).userId == uid
          && (if s.id == s0.id then
            ({ s with totalRevenue := s0.totalRevenue + amount,
                      totalInvoices := s0.totalInvoices + (if amount > 0 then 1 else -1) }
              : AnnualStat)
          else s).year == parseDec (ym.take 4))
        = (s.userId == uid && s.year == parseDec (ym.take 4)) := by
      intro s
      by_cases h : (s.id == s0.id) = true <;> simp [h]
    have hres : updateAnnualStats uid amount ym db
        = { db with annualStats := db.annualStats.map fun s =>
            if s.id == s0.id then
              { s with totalRevenue := s0.totalRevenue + amount,
                       totalInvoices := s0.totalInvoices + (if amount > 0 then 1 else -1) }
            else s } := by
      unfold updateAnnualStats
      simp only [hf]
    have hfind : statFor (updateAnnualStats uid amount ym db) uid (parseDec (ym.take 4))
        = some { s0 with totalRevenue := s0.totalRevenue + amount,
                         totalInvoices := s0.totalInvoices + (if amount > 0 then 1 else -1) } := by
      rw [hres]
      unfold statFor
      show (db.annualStats.map _).find? _ = _
      rw [find?_map_pred _ _ hp db.annualStats, hf]
      simp
    refine ⟨?_, ?_, ?_⟩
    · unfold revenueFor
      rw [hfind]
      unfold statFor
      rw [hf]
      simp
    · intro hnone
      unfold statFor at hnone
      rw [hf] at hnone
      cases hnone
    · intro s1 hs1
      unfold statFor at hs1
      rw [hf] at hs1
      injection hs1 with hs1
      subst hs1
      exact ⟨_, hfind, rfl, rfl⟩

theorem updateAnnualStats_invoices (uid : String) (amount : Int) (ym : String) (db : DB) :
    (updateAnnualStats uid amount ym db).invoices = db.invoices :=
  (updateAnnualStats_frame uid amount ym db).2.2.1

theorem updateAnnualStats_audit (uid : String) (amount : Int) (ym : String) (db : DB) :
    (updateAnnualStats uid amount ym db).auditLogs = db.auditLogs :=
  (updateAnnualStats_frame uid amount ym db).2.2.2.2

/-! ### Helper lemmas: `createInvoice` -/

theorem createInvoice_error (now : JsDate) (data : InsertInvoiceData) (items : List NewItem)
    (uid : String) (db : DB) (e : String)
    (h : (createInvoice now data items uid db).1 = Except.error e) :
    (createInvoice now data items uid db).2.invoices = db.invoices
    ∧ (createInvoice now data items uid db).2.annualStats = db.annualStats
    ∧ (createInvoice now data items uid db).2.auditLogs = db.auditLogs := by
  have hfr := getAvailable_frame now data.yearMonth db
  rcases hg : getAvailableInvoiceNumber now data.yearMonth db with ⟨res, db1⟩
  rw [hg] at hfr
  cases res with
  | ok num =>
    exfalso
    unfold createInvoice at h
    rw [hg] at h
    simp at h
  | error e2 =>
    unfold createInvoice
    rw [hg]
    exact ⟨hfr.2.1, hfr.2.2.2.1, hfr.2.2.2.2⟩

theorem createInvoice_ok_eq (now : JsDate) (data : InsertInvoiceData) (items : List NewItem)
    (uid : String) (db : DB) (num : String) (db1 : DB)
    (hg : getAvailableInvoiceNumber now data.yearMonth db = (Except.ok num, db1)) :
    createInvoice now data items uid db
      = (Except.ok (builtInvoice now data uid num db1),
         { updateAnnualStats uid data.grandTotal data.yearMonth
             (builtDb3 now data items uid num db1) with
             auditLogs := (updateAnnualStats uid data.grandTotal data.yearMonth
                 (builtDb3 now data items uid num db1)).auditLogs
               ++ [{ userId := uid, action := "CREATE_INVOICE", resourceType := "invoice"
                     resourceId := some (numToString (builtInvoice now data uid num db1).id) }] }) := by
  unfold createInvoice
  rw [hg]
  rfl

theorem builtDb3_invoices (now : JsDate) (data : InsertInvoiceData) (items : List NewItem)
    (uid num : String) (db1 : DB) :
    (builtDb3 now data items uid num db1).invoices
      = db1.invoices ++ [builtInvoice now data uid num db1] := rfl

theorem builtDb3_annualStats (now : JsDate) (data : InsertInvoiceData) (items : List NewItem)
    (uid num : String) (db1 : DB) :
    (builtDb3 now data items uid num db1).annualStats = db1.annualStats := rfl

theorem builtDb3_audit (now : JsDate) (data : InsertInvoiceData) (items : List NewItem)
    (uid num : String) (db1 : DB) :
    (builtDb3 now data items uid num db1).auditLogs = db1.auditLogs := rfl

/-! ### Claim C4 -/

/-- C4 (amended): `createInvoice` inserts the invoice row with status
"issued", adds the invoice's `grandTotal` to the acting user's annual stat
for the period's year — creating the row, when absent, with that amount and
count 1 when the amount is positive (0 otherwise, as the source computes
`amount > 0 ? 1 : 0`) — and appends one audit entry; and whenever any step
fails, the invoice, annual-stat and audit-log tables are all left exactly as
they were. -/
theorem C4_create_ledger (now : JsDate) (data : InsertInvoiceData) (items : List NewItem)
    (uid : String) (db : DB) :
    (∀ e, (createInvoice now data items uid db).1 = Except.error e →
        (createInvoice now data items uid db).2.invoices = db.invoices
        ∧ (createInvoice now data items uid db).2.annualStats = db.annualStats
        ∧ (createInvoice now data items uid db).2.auditLogs = db.auditLogs)
    ∧ (∀ inv, (createInvoice now data items uid db).1 = Except.ok inv →
        inv.status = "issued" ∧ inv.grandTotal = data.grandTotal
        ∧ (createInvoice now data items uid db).2.invoices = db.invoices ++ [inv]
        ∧ revenueFor (createInvoice now data items uid db).2 uid
              (parseDec (data.yearMonth.take 4))
            = revenueFor db uid (parseDec (data.yearMonth.take 4)) + data.grandTotal
        ∧ (statFor db uid (parseDec (data.yearMonth.take 4)) = none →
            ∃ s, statFor (createInvoice now data items uid db).2 uid
                  (parseDec (data.yearMonth.take 4)) = some s
              ∧ s.totalRevenue = data.grandTotal
              ∧ s.totalInvoices = (if data.grandTotal > 0 then 1 else 0))
        ∧ (createInvoice now data items uid db).2.auditLogs = db.auditLogs ++
            [{ userId := uid, action := "CREATE_INVOICE", resourceType := "invoice"
               resourceId := some (numToString inv.id) }]) := by
  constructor
  · intro e he
    exact createInvoice_error now data items uid db e he
  · intro inv hok
    rcases hg : getAvailableInvoiceNumber now data.yearMonth db with ⟨res, db1⟩
    have hfr := getAvailable_frame now data.yearMonth db
    rw [hg] at hfr
    cases res with
    | error e =>
      exfalso
      unfold createInvoice at hok
      rw [hg] at hok
      simp at hok
    | ok num =>
      have heq := createInvoice_ok_eq now data items uid db num db1 hg
      have hinveq : inv = builtInvoice now data uid num db1 := by
        rw [heq] at hok
        simpa using hok.symm
      subst hinveq
      have hstats3 : (builtDb3 now data items uid num db1).annualStats = db.annualStats := by
        rw [builtDb3_annualStats]
        exact hfr.2.2.2.1
      have hspec := updateAnnualStats_spec uid data.grandTotal data.yearMonth
        (builtDb3 now data items uid num db1)
      refine ⟨rfl, rfl, ?_, ?_, ?_, ?_⟩
      · rw [heq]
        show (updateAnnualStats uid data.grandTotal data.yearMonth
            (builtDb3 now data items uid num db1)).invoices
          = db.invoices ++ [builtInvoice now data uid num db1]
        rw [updateAnnualStats_invoices, builtDb3_invoices, hfr.2.1]
      · rw [heq]
        show revenueFor (updateAnnualStats uid data.grandTotal data.yearMonth
            (builtDb3 now data items uid num db1)) uid (parseDec (data.yearMonth.take 4))
          = revenueFor db uid (parseDec (data.yearMonth.take 4)) + data.grandTotal
        rw [hspec.1, revenueFor_congr hstats3]
      · intro hnone
        have hnone3 : statFor (builtDb3 now data items uid num db1) uid
            (parseDec (data.yearMonth.take 4)) = none := by
          rw [statFor_congr hstats3]
          exact hnone
        obtain ⟨s, hs, hrev, hcnt⟩ := hspec.2.1 hnone3
        refine ⟨s, ?_, hrev, hcnt⟩
        rw [heq]
        show statFor (updateAnnualStats uid data.grandTotal data.yearMonth
            (builtDb3 now data items uid num db1)) uid (parseDec (data.yearMonth.take 4))
          = some s
        exact hs
      · rw [heq]
        show (updateAnnualStats uid data.grandTotal data.yearMonth
              (builtDb3 now data items uid num db1)).auditLogs
            ++ [{ userId := uid, action := "CREATE_INVOICE", resourceType := "invoice"
                  resourceId := some (numToString (builtInvoice now data uid num db1).id) }]
          = db.auditLogs ++
            [{ userId := uid, action := "CREATE_INVOICE", resourceType := "invoice"
               resourceId := some (numToString (builtInvoice now data uid num db1).id) }]
        rw [updateAnnualStats_audit, builtDb3_audit, hfr.2.2.2.2]

/-- Counterexample for C4 as frozen: a zero-amount invoice is created while
no stat row exists, and the freshly created stat row carries invoice count
0, not 1 (the source computes `amount > 0 ? 1 : 0`). -/
theorem C4_counterexample :
    statFor emptyDB "u1" (parseDec (zeroData.yearMonth.take 4)) = none
    ∧ (createInvoice sampleDate zeroData [] "u1" emptyDB).1 = Except.ok zeroCreated
    ∧ (statFor (createInvoice sampleDate zeroData [] "u1" emptyDB).2 "u1"
        (parseDec (zeroData.yearMonth.take 4))).map AnnualStat.totalInvoices = some 0
    ∧ some (0 : Int) ≠ some 1 := by
  refine ⟨by decide, by decide, by decide, by decide⟩

/-- Witness for C4: a concrete successful creation adds exactly its grand
total to the acting user's annual revenue. -/
theorem C4_create_ledger_witness :
    revenueFor (createInvoice sampleDate sampleData [] "u1" emptyDB).2 "u1"
        (parseDec (sampleData.yearMonth.take 4))
      = revenueFor emptyDB "u1" (parseDec (sampleData.yearMonth.take 4))
        + sampleData.grandTotal :=
  (((C4_create_ledger sampleDate sampleData [] "u1" emptyDB).2 sampleCreated
    (by decide)).2.2.2.1)

/-! ### Helper lemmas: `voidInvoice` -/

theorem voidInvoice_missing (now : JsDate) (invId : Nat) (reason uid : String) (db : DB)
    (hf : db.invoices.find? (fun i => i.id == invId) = none) :
    voidInvoice now invId reason uid db = (Except.error invoiceMissingMsg, db) := by
  unfold voidInvoice
  rw [hf]

theorem voidInvoice_voided (now : JsDate) (invId : Nat) (reason uid : String) (db : DB)
    (inv : Invoice) (hf : db.invoices.find? (fun i => i.id == invId) = some inv)
    (hv : inv.status = "voided") :
    voidInvoice now invId reason uid db = (Except.error alreadyVoidedMsg, db) := by
  unfold voidInvoice
  rw [hf]
  simp [hv]

theorem voidInvoice_ok_eq (now : JsDate) (invId : Nat) (reason uid : String) (db : DB)
    (inv : Invoice) (hf : db.invoices.find? (fun i => i.id == invId) = some inv)
    (hnv : ¬ inv.status = "voided") :
    voidInvoice now invId reason uid db
      = (Except.ok (),
         { updateAnnualStats uid (-inv.grandTotal) inv.yearMonth
             (builtVoidDb1 now invId reason db) with
             auditLogs := (updateAnnualStats uid (-inv.grandTotal) inv.yearMonth
                 (builtVoidDb1 now invId reason db)).auditLogs
               ++ [{ userId := uid, action := "VOID_INVOICE", resourceType := "invoice"
                     resourceId := some (numToString invId) }] }) := by
  unfold voidInvoice
  rw [hf]
  have hcond : (inv.status == "voided") = false := by simpa using hnv
  simp only [hcond, Bool.false_eq_true, if_false]
  rfl

theorem find?_voided (now : JsDate) (invId : Nat) (reason : String) (l : List Invoice) :
    (voidedInvoices now invId reason l).find? (fun i => i.id == invId)
      = (l.find? (fun i => i.id == invId)).map
          (fun i =>
            { i with status := "voided", voidedAt := some now, voidReason := some reason }) := by
  unfold voidedInvoices
  have hp : ∀ i : Invoice,
      ((if i.id == invId then
          ({ i with status := "voided", voidedAt := some now, voidReason := some reason }
            : Invoice)
        else i).id == invId) = (i.id == invId) := by
    intro i
    by_cases h : (i.id == invId) = true <;> simp [h]
  rw [find?_map_pred _ _ hp]
  cases hfind : l.find? (fun i => i.id == invId) with
  | none => rfl
  | some a =>
    have ha : a.id = invId := by simpa using List.find?_some hfind
    simp [ha]

/-! ### Claim C5 -/

/-- C5: `voidInvoice` fails with the not-found error when the invoice id is
absent, fails with the already-voided error when the invoice is already
voided — in both cases writing nothing — and otherwise flips the row to
"voided" with the void time and reason stamped, decreases the acting user's
annual revenue for the invoice's year by exactly the original `grandTotal`,
and appends one audit entry, all applied together. -/
theorem C5_void_invoice (now : JsDate) (invId : Nat) (reason uid : String) (db : DB) :
    (db.invoices.find? (fun i => i.id == invId) = none →
      voidInvoice now invId reason uid db = (Except.error invoiceMissingMsg, db))
    ∧ (∀ inv, db.invoices.find? (fun i => i.id == invId) = some inv →
        inv.status = "voided" →
        voidInvoice now invId reason uid db = (Except.error alreadyVoidedMsg, db))
    ∧ (∀ inv, db.invoices.find? (fun i => i.id == invId) = some inv →
        inv.status ≠ "voided" →
        (voidInvoice now invId reason uid db).1 = Except.ok ()
        ∧ (voidInvoice now invId reason uid db).2.invoices.find? (fun i => i.id == invId)
            = some { inv with status := "voided", voidedAt := some now,
                              voidReason := some reason }
        ∧ revenueFor (voidInvoice now invId reason uid db).2 uid
              (parseDec (inv.yearMonth.take 4))
            = revenueFor db uid (parseDec (inv.yearMonth.take 4)) - inv.grandTotal
        ∧ (voidInvoice now invId reason uid db).2.auditLogs = db.auditLogs ++
            [{ userId := uid, action := "VOID_INVOICE", resourceType := "invoice"
               resourceId := some (numToString invId) }]) := by
  refine ⟨?_, ?_, ?_⟩
  · intro hf
    exact voidInvoice_missing now invId reason uid db hf
  · intro inv hf hv
    exact voidInvoice_voided now invId reason uid db inv hf hv
  · intro inv hf hnv
    have heq := voidInvoice_ok_eq now invId reason uid db inv hf hnv
    have hstats : (builtVoidDb1 now invId reason db).annualStats = db.annualStats := rfl
    have hspec := updateAnnualStats_spec uid (-inv.grandTotal) inv.yearMonth
      (builtVoidDb1 now invId reason db)
    refine ⟨by rw [heq], ?_, ?_, ?_⟩
    · rw [heq]
      show (updateAnnualStats uid (-inv.grandTotal) inv.yearMonth
          (builtVoidDb1 now invId reason db)).invoices.find? (fun i => i.id == invId)
        = some { inv with status := "voided", voidedAt := some now,
                          voidReason := some reason }
      rw [updateAnnualStats_invoices]
      show (voidedInvoices now invId reason db.invoices).find? (fun i => i.id == invId) = _
      rw [find?_voided, hf]
      rfl
    · rw [heq]
      show revenueFor (updateAnnualStats uid (-inv.grandTotal) inv.yearMonth
          (builtVoidDb1 now invId reason db)) uid (parseDec (inv.yearMonth.take 4))
        = revenueFor db uid (parseDec (inv.yearMonth.take 4)) - inv.grandTotal
      rw [hspec.1, revenueFor_congr hstats]
      omega
    · rw [heq]
      show (updateAnnualStats uid (-inv.grandTotal) inv.yearMonth
            (builtVoidDb1 now invId reason db)).auditLogs
          ++ [{ userId := uid, action := "VOID_INVOICE", resourceType := "invoice"
                resourceId := some (numToString invId) }]
        = db.auditLogs ++
          [{ userId := uid, action := "VOID_INVOICE", resourceType := "invoice"
             resourceId := some (numToString invId) }]
      rw [updateAnnualStats_audit]
      rfl

/-- Witness for C5: voiding a concrete issued invoice decreases the year's
recorded revenue by exactly its grand total. -/
theorem C5_void_invoice_witness :
    revenueFor (voidInvoice sampleDate 1 "keyed in error" "u1" dbWithIssued).2 "u1"
        (parseDec (sampleIssued.yearMonth.take 4))
      = revenueFor dbWithIssued "u1" (parseDec (sampleIssued.yearMonth.take 4))
        - sampleIssued.grandTotal :=
  ((C5_void_invoice sampleDate 1 "keyed in error" "u1" dbWithIssued).2.2 sampleIssued
    (by decide) (by decide)).2.2.1

/-! ### Helper lemmas: voided invoices stay voided -/

theorem statusOf_eq_invoices {db db2 : DB} (hinvs : db2.invoices = db.invoices) (i : Nat) :
    statusOf db2 i = statusOf db i := by
  unfold statusOf
  rw [hinvs]

theorem statusOf_append_preserved (db : DB) (l2 : List Invoice) (i : Nat)
    (h : statusOf db i = some "voided") (db2 : DB)
    (hinvs : db2.invoices = db.invoices ++ l2) :
    statusOf db2 i = some "voided" := by
  unfold statusOf at h ⊢
  rw [hinvs]
  cases hfind : db.invoices.find? (fun x => x.id == i) with
  | none => rw [hfind] at h; cases h
  | some a =>
    rw [find?_append_some _ _ _ _ hfind]
    rw [hfind] at h
    exact h

theorem statusOf_map_found (db : DB) (f : Invoice → Invoice) (i : Nat)
    (hid : ∀ x, (f x).id = x.id)
    (h : statusOf db i = some "voided")
    (hfa : ∀ a, db.invoices.find? (fun x => x.id == i) = some a → a.status = "voided" →
      (f a).status = "voided")
    (db2 : DB) (hinvs : db2.invoices = db.invoices.map f) :
    statusOf db2 i = some "voided" := by
  unfold statusOf at h ⊢
  rw [hinvs]
  have hp : ∀ x : Invoice, ((f x).id == i) = (x.id == i) := by
    intro x
    rw [hid]
  rw [find?_map_pred f _ hp]
  cases hfind : db.invoices.find? (fun x => x.id == i) with
  | none => rw [hfind] at h; cases h
  | some a =>
    rw [hfind] at h
    have ha : a.status = "voided" := by simpa using h
    simp [hfa a hfind ha]

theorem updateInvoice_missing (invId : Nat) (upd : UpdateInvoiceData) (uid : String) (db : DB)
    (hf : db.invoices.find? (fun i => i.id == invId) = none) :
    updateInvoice invId upd uid db = (Except.error invoiceMissingMsg, db) := by
  unfold updateInvoice
  rw [hf]

theorem updateInvoice_nondraft (invId : Nat) (upd : UpdateInvoiceData) (uid : String) (db : DB)
    (inv : Invoice) (hf : db.invoices.find? (fun i => i.id == invId) = some inv)
    (hd : inv.status ≠ "draft") :
    updateInvoice invId upd uid db = (Except.error draftOnlyMsg, db) := by
  unfold updateInvoice
  simp only [hf]
  rw [if_pos hd]

theorem updateInvoice_ok_eq (invId : Nat) (upd : UpdateInvoiceData) (uid : String) (db : DB)
    (inv : Invoice) (hf : db.invoices.find? (fun i => i.id == invId) = some inv)
    (hd : inv.status = "draft") :
    updateInvoice invId upd uid db
      = (Except.ok (applyUpdate upd inv),
         { db with
             invoices := db.invoices.map fun i =>
               if i.id == invId then applyUpdate upd i else i
             auditLogs := db.auditLogs ++
               [{ userId := uid, action := "UPDATE_INVOICE", resourceType := "invoice"
                  resourceId := some (numToString invId) }] }) := by
  unfold updateInvoice
  simp only [hf]
  rw [if_neg (show ¬ inv.status ≠ "draft" by simp [hd])]

theorem voidInvoiceNumber_invoices (now : JsDate) (invNum reason : String) (db : DB) :
    (voidInvoiceNumber now invNum reason db).2.invoices = db.invoices
    ∨ (voidInvoiceNumber now invNum reason db).2.invoices
        = db.invoices.map fun i =>
            if i.invoiceNumber == invNum then
              { i with status := "voided", voidedAt := some now, voidReason := some reason }
            else i := by
  unfold voidInvoiceNumber
  rcases hf : List.find? (fun i => i.invoiceNumber == invNum) db.invoices with _ | inv
  · simp [hf]
  · simp only [hf]
    by_cases hv : (inv.status == "voided") = true
    · rw [if_pos hv]
      exact Or.inl rfl
    · rw [if_neg hv]
      exact Or.inr rfl

theorem batchUpload_invoices (now : JsDate) (ym uid : String) (db : DB) :
    (batchUploadInvoices now ym uid db).2.invoices
      = db.invoices.map fun i =>
          if i.yearMonth == ym && i.status == "issued" && i.uploadedAt == none then
            { i with uploadedAt := some now }
          else i := rfl

/-! ### Claim C8 -/

/-- C8: a voided invoice never changes status again: `voidInvoice` rejects a
voided invoice with the already-voided error, `updateInvoice` rejects every
invoice that is not a draft, and none of the operations that write invoice
rows — creation, update, void (by id or by number), batch upload — moves an
invoice whose status is "voided" to any other status. -/
theorem C8_voided_terminal :
    (∀ now invId reason uid db inv,
        db.invoices.find? (fun i => i.id == invId) = some inv → inv.status = "voided" →
        voidInvoice now invId reason uid db = (Except.error alreadyVoidedMsg, db))
    ∧ (∀ invId upd uid db inv,
        db.invoices.find? (fun i => i.id == invId) = some inv → inv.status ≠ "draft" →
        updateInvoice invId upd uid db = (Except.error draftOnlyMsg, db))
    ∧ (∀ now data items uid db i, statusOf db i = some "voided" →
        statusOf (createInvoice now data items uid db).2 i = some "voided")
    ∧ (∀ invId upd uid db i, statusOf db i = some "voided" →
        statusOf (updateInvoice invId upd uid db).2 i = some "voided")
    ∧ (∀ now invId reason uid db i, statusOf db i = some "voided" →
        statusOf (voidInvoice now invId reason uid db).2 i = some "voided")
    ∧ (∀ now invNum reason db i, statusOf db i = some "voided" →
        statusOf (voidInvoiceNumber now invNum reason db).2 i = some "voided")
    ∧ (∀ now ym uid db i, statusOf db i = some "voided" →
        statusOf (batchUploadInvoices now ym uid db).2 i = some "voided") := by
  refine ⟨?_, ?_, ?_, ?_, ?_, ?_, ?_⟩
  · intro now invId reason uid db inv hf hv
    exact voidInvoice_voided now invId reason uid db inv hf hv
  · intro invId upd uid db inv hf hd
    exact updateInvoice_nondraft invId upd uid db inv hf hd
  · intro now data items uid db i h
    rcases hg : getAvailableInvoiceNumber now data.yearMonth db with ⟨res, db1⟩
    have hfr := getAvailable_frame now data.yearMonth db
    rw [hg] at hfr
    cases res with
    | error e =>
      have hinvs : (createInvoice now data items uid db).2.invoices = db.invoices := by
        unfold createInvoice
        rw [hg]
        exact hfr.2.1
      rw [statusOf_eq_invoices hinvs]
      exact h
    | ok num =>
      have heq := createInvoice_ok_eq now data items uid db num db1 hg
      refine statusOf_append_preserved db [builtInvoice now data uid num db1] i h _ ?_
      rw [heq]
      show (updateAnnualStats uid data.grandTotal data.yearMonth
          (builtDb3 now data items uid num db1)).invoices
        = db.invoices ++ [builtInvoice now data uid num db1]
      rw [updateAnnualStats_invoices, builtDb3_invoices, hfr.2.1]
  · intro invId upd uid db i h
    rcases hf : db.invoices.find? (fun x => x.id == invId) with _ | ex
    · rw [updateInvoice_missing invId upd uid db hf]
      exact h
    · by_cases hd : ex.status = "draft"
      · by_cases hii : i = invId
        · subst hii
          unfold statusOf at h
          rw [hf] at h
          have : ex.status = "voided" := by simpa using h
          rw [hd] at this
          exact absurd this (by decide)
        · have heq := updateInvoice_ok_eq invId upd uid db ex hf hd
          refine statusOf_map_found db
            (fun x => if x.id == invId then applyUpdate upd x else x) i ?_ h ?_ _ ?_
          · intro x
            by_cases hx : (x.id == invId) = true <;> simp [hx, applyUpdate]
          · intro a hfa hav
            have hai : a.id = i := by simpa using List.find?_some hfa
            have : (a.id == invId) = false := by
              simp [hai]
              omega
            simp [this, hav]
          · rw [heq]
      · rw [updateInvoice_nondraft invId upd uid db ex hf hd]
        exact h
  · intro now invId reason uid db i h
    rcases hf : db.invoices.find? (fun x => x.id == invId) with _ | inv
    · rw [voidInvoice_missing now invId reason uid db hf]
      exact h
    · by_cases hv : inv.status = "voided"
      · rw [voidInvoice_voided now invId reason uid db inv hf hv]
        exact h
      · have heq := voidInvoice_ok_eq now invId reason uid db inv hf hv
        refine statusOf_map_found db
          (fun x => if x.id == invId then
            { x with status := "voided", voidedAt := some now, voidReason := some reason }
          else x) i ?_ h ?_ _ ?_
        · intro x
          by_cases hx : (x.id == invId) = true <;> simp [hx]
        · intro a _ hav
          by_cases hx : (a.id == invId) = true <;> simp [hx, hav]
        · rw [heq]
          show (updateAnnualStats uid (-inv.grandTotal) inv.yearMonth
              (builtVoidDb1 now invId reason db)).invoices = _
          rw [updateAnnualStats_invoices]
          rfl
  · intro now invNum reason db i h
    rcases voidInvoiceNumber_invoices now invNum reason db with hinvs | hinvs
    · rw [statusOf_eq_invoices hinvs]
      exact h
    · refine statusOf_map_found db
        (fun x => if x.invoiceNumber == invNum then
          { x with status := "voided", voidedAt := some now, voidReason := some reason }
        else x) i ?_ h ?_ _ hinvs
      · intro x
        by_cases hx : (x.invoiceNumber == invNum) = true <;> simp [hx]
      · intro a _ hav
        by_cases hx : (a.invoiceNumber == invNum) = true <;> simp [hx, hav]
  · intro now ym uid db i h
    refine statusOf_map_found db
      (fun x => if x.yearMonth == ym && x.status == "issued" && x.uploadedAt == none then
        { x with uploadedAt := some now }
      else x) i ?_ h ?_ _ (batchUpload_invoices now ym uid db)
    · intro x
      by_cases hx : (x.yearMonth == ym && x.status == "issued" && x.uploadedAt == none) = true <;>
        simp [hx]
    · intro a _ hav
      by_cases hx : (a.yearMonth == ym && a.status == "issued" && a.uploadedAt == none) = true <;>
        simp [hx, hav]

/-- Witness for C8: voiding a concrete already-voided invoice is rejected
and leaves the store untouched. -/
theorem C8_voided_terminal_witness :
    voidInvoice sampleDate 1 "again" "u1" dbWithVoided
      = (Except.error alreadyVoidedMsg, dbWithVoided) :=
  C8_voided_terminal.1 sampleDate 1 "again" "u1" dbWithVoided sampleVoided
    (by decide) (by decide)

/-! ### Claim C6 -/

/-- C6, evaluated at the failing input: with two issued invoices of ids 1
and 2 inside the year 2025, `getAnnualStats` returns `totalInvoices = 3` —
the source aggregates `sum(invoices.id)` — while the count of the rows its
own filter selects is 2; the revenue really is the sum of the selected rows'
grand totals. -/
theorem C6_totalInvoices_bug :
    (getAnnualStats 2025 none dbTwoIssued).totalInvoices = 3
    ∧ (dbTwoIssued.invoices.filter (annualFilter 2025 none)).length = 2
    ∧ (getAnnualStats 2025 none dbTwoIssued).totalRevenue
        = ((dbTwoIssued.invoices.filter (annualFilter 2025 none)).map Invoice.grandTotal).sum
    ∧ (getAnnualStats 2025 none dbTwoIssued).totalRevenue = 700
    ∧ (3 : Int) ≠ 2 := by
  refine ⟨by decide, by decide, by decide, by decide, by decide⟩

/-! ### Claim C9 -/

/-- C9: `checkPermission` is a static role map — an active admin may do
everything, an active operator may do exactly CREATE_INVOICE, READ_INVOICE,
UPDATE_INVOICE, VOID_INVOICE and EXPORT_DATA, and a user with any other role
may do nothing. -/
theorem C9_role_permissions (uid action resType : String) (db : DB) (u : User)
    (hf : db.users.find? (fun x => x.id == uid) = some u)
    (hact : u.isActive = true) :
    (u.role = "admin" → checkPermission uid action resType db = true)
    ∧ (u.role = "operator" →
        (checkPermission uid action resType db = true ↔ action ∈ operatorPermissions))
    ∧ (u.role ≠ "admin" → u.role ≠ "operator" →
        checkPermission uid action resType db = false) := by
  unfold checkPermission
  simp only [hf]
  refine ⟨?_, ?_, ?_⟩
  · intro hr
    simp [hact, hr]
  · intro hr
    simp [hact, hr]
  · intro h1 h2
    have e1 : (u.role == "admin") = false := by simpa using h1
    have e2 : (u.role == "operator") = false := by simpa using h2
    simp [hact, e1, e2]

/-- Witness for C9: the concrete active operator may create invoices. -/
theorem C9_role_permissions_witness :
    checkPermission "o1" "CREATE_INVOICE" "invoice" dbUsers = true :=
  ((C9_role_permissions "o1" "CREATE_INVOICE" "invoice" dbUsers
      { id := "o1", username := "operator", role := "operator", isActive := true }
      (by decide) rfl).2.1 rfl).mpr (by decide)

/-! ### Claim C10 -/

/-- C10: `checkPermission` denies every action when the user id resolves to
no user or the user is deactivated, regardless of role. -/
theorem C10_inactive_denied (uid action resType : String) (db : DB) :
    (db.users.find? (fun x => x.id == uid) = none →
      checkPermission uid action resType db = false)
    ∧ (∀ u, db.users.find? (fun x => x.id == uid) = some u → u.isActive = false →
      checkPermission uid action resType db = false) := by
  constructor
  · intro hf
    unfold checkPermission
    simp [hf]
  · intro u hf hact
    unfold checkPermission
    simp [hf, hact]

/-- Witness for C10: the concrete deactivated admin account is denied. -/
theorem C10_inactive_denied_witness :
    checkPermission "a2" "CREATE_INVOICE" "invoice" dbUsers = false :=
  (C10_inactive_denied "a2" "CREATE_INVOICE" "invoice" dbUsers).2
    { id := "a2", username := "admin2", role := "admin", isActive := false }
    (by decide) rfl

end InvoiceApp
